import Mathlib

/-!
Shallow embedding of the Game Boy Printer serial-link packet engine,
`src/research/gbp_dev/gbp_serial_io.cpp`.

Machine integers are modelled as `Nat`, with explicit `% 2 ^ w` wherever the
C unsigned arithmetic can wrap, and the C `int` sequencing countdowns as
`Int`.  The build used is the default one: the conditional blocks guarded by
`GBP_FEATURE_USING_RISING_CLOCK_ONLY_ISR`, `GBP_FEATURE_RAW_DUMP`,
`FEATURE_CHECKSUM_SUPPORTED`, `TEST_CHECKSUM_FORCE_FAIL` and
`TEST_PRETEND_BUFFER_FULL` are compiled out.

The headers `gameboy_printer_protocol.h`, `gpb_serial_io.h` and
`gpb_cbuff.h` are not part of the source snapshot; the constants, the
status-bit macros and the byte ring buffer they provide are modelled from
the specification and carry a `Modelled from the spec:` doc comment.
-/

namespace GbpEmu

/-- Modelled from the spec: `GBP_SYNC_WORD` from the missing header
`gameboy_printer_protocol.h`; the magic word framing every packet is
`0x8833` (bytes `0x88`, `0x33`). -/
def GBP_SYNC_WORD : Nat := 0x8833

/-- Modelled from the spec: command byte `INIT = 0x01`. -/
def GBP_COMMAND_INIT : Nat := 0x01

/-- Modelled from the spec: command byte `PRINT = 0x02`. -/
def GBP_COMMAND_PRINT : Nat := 0x02

/-- Modelled from the spec: command byte `DATA = 0x04`. -/
def GBP_COMMAND_DATA : Nat := 0x04

/-- Modelled from the spec: command byte `BREAK = 0x08`. -/
def GBP_COMMAND_BREAK : Nat := 0x08

/-- Modelled from the spec: command byte `INQUIRY = 0x0F`. -/
def GBP_COMMAND_INQUIRY : Nat := 0x0F

/-- Modelled from the spec: the fixed device id byte `0x81` transmitted as
the high byte of the status word. -/
def GBP_DEVICE_ID : Nat := 0x81

/-- `GBP_PKT10_TIMEOUT_MS` (gbp_serial_io.cpp:29). -/
def GBP_PKT10_TIMEOUT_MS : Nat := 5000

/-- `GPB_BUSY_PACKET_COUNT` (gbp_serial_io.cpp:38). -/
def GPB_BUSY_PACKET_COUNT : Int := 3

/-- Modelled from the spec: the byte ring buffer of the missing module
`gpb_cbuff.h`.  Fixed-capacity byte queue; an enqueue on a full buffer
drops the newest byte.  Since `FEATURE_CHECKSUM_SUPPORTED` is not defined,
the staged `EnqueueTemp` variant commits immediately (spec 4.5: if staging
is not implemented, enqueues commit immediately). -/
structure gpb_cbuff_t where
  capacity : Nat
  buff : List Nat
deriving DecidableEq, Repr

/-- Modelled from the spec: `gpb_cbuff_Init` installs backing storage of the
given capacity with zero occupancy. -/
def gpb_cbuff_Init (capacity : Nat) : gpb_cbuff_t :=
  { capacity := capacity, buff := [] }

/-- Modelled from the spec: `gpb_cbuff_Count` returns the occupancy. -/
def gpb_cbuff_Count (b : gpb_cbuff_t) : Nat := b.buff.length

/-- Modelled from the spec: `gpb_cbuff_Reset` clears the occupancy. -/
def gpb_cbuff_Reset (b : gpb_cbuff_t) : gpb_cbuff_t := { b with buff := [] }

/-- Modelled from the spec: `gpb_cbuff_EnqueueTemp`, committing immediately
in this build; a byte enqueued on a full buffer is dropped (drop-newest). -/
def gpb_cbuff_EnqueueTemp (b : gpb_cbuff_t) (x : Nat) : gpb_cbuff_t :=
  if b.buff.length < b.capacity then { b with buff := b.buff ++ [x] } else b

/-- Modelled from the spec: `gpb_cbuff_Dequeue` removes and returns the
oldest byte; on an empty buffer the out-parameter keeps its initial 0. -/
def gpb_cbuff_Dequeue (b : gpb_cbuff_t) : Nat × gpb_cbuff_t :=
  match b.buff with
  | [] => (0, b)
  | x :: rest => (x, { b with buff := rest })

/-- Modelled from the spec: status byte bit positions (LSB first): bit 0
checksum error, 1 printer busy, 2 print-buffer full, 3 unprocessed data,
4 packet error, 5 paper jam, 6 other error, 7 low battery.  A status-bit
update macro sets or clears one bit of the 16-bit status word. -/
def gpb_status_bit_update (pos : Nat) (status : Nat) (v : Bool) : Nat :=
  if v then status ||| (1 <<< pos) else status &&& (0xFFFF ^^^ (1 <<< pos))

/-- Modelled from the spec: update macro for bit 0, checksum error. -/
def gpb_status_bit_update_checksum_error (s : Nat) (v : Bool) : Nat :=
  gpb_status_bit_update 0 s v

/-- Modelled from the spec: update macro for bit 1, printer busy. -/
def gpb_status_bit_update_printer_busy (s : Nat) (v : Bool) : Nat :=
  gpb_status_bit_update 1 s v

/-- Modelled from the spec: update macro for bit 2, print-buffer full. -/
def gpb_status_bit_update_print_buffer_full (s : Nat) (v : Bool) : Nat :=
  gpb_status_bit_update 2 s v

/-- Modelled from the spec: update macro for bit 3, unprocessed data. -/
def gpb_status_bit_update_unprocessed_data (s : Nat) (v : Bool) : Nat :=
  gpb_status_bit_update 3 s v

/-- Modelled from the spec: update macro for bit 4, packet error. -/
def gpb_status_bit_update_packet_error (s : Nat) (v : Bool) : Nat :=
  gpb_status_bit_update 4 s v

/-- Modelled from the spec: update macro for bit 5, paper jam. -/
def gpb_status_bit_update_paper_jam (s : Nat) (v : Bool) : Nat :=
  gpb_status_bit_update 5 s v

/-- Modelled from the spec: update macro for bit 6, other error. -/
def gpb_status_bit_update_other_error (s : Nat) (v : Bool) : Nat :=
  gpb_status_bit_update 6 s v

/-- Modelled from the spec: update macro for bit 7, low battery. -/
def gpb_status_bit_update_low_battery (s : Nat) (v : Bool) : Nat :=
  gpb_status_bit_update 7 s v

/-- `gpb_sio_mode_t` (gbp_serial_io.cpp:43-49). -/
inductive gpb_sio_mode_t where
  | GPB_SIO_MODE_RESET
  | GPB_SIO_MODE_8BITS
  | GPB_SIO_MODE_16BITS_BIG_ENDIAN
  | GPB_SIO_MODE_16BITS_LITTLE_ENDIAN
deriving DecidableEq, Repr

/-- `gbp_pktIO_parse_state_t` (gbp_serial_io.cpp:69-79). -/
inductive gbp_pktIO_parse_state_t where
  | GBP_PKT10_PARSE_HEADER_COMMAND_AND_COMPRESSION
  | GBP_PKT10_PARSE_HEADER_DATA_LENGTH
  | GBP_PKT10_PARSE_DATA_PAYLOAD
  | GBP_PKT10_PARSE_CHECKSUM
  | GBP_PKT10_PARSE_DUMMY
deriving DecidableEq, Repr

/-- The file-scope mutable state of the engine: the fields of the C structs
`gpb_sio` (gbp_serial_io.cpp:52-63, shifter and preamble synchroniser) and
`gpb_pktIO` (gbp_serial_io.cpp:81-123, packet parser), flattened into one
record.  Width comments give the C types; the fields
`dataPacketPayloadSize` and `dataPacketIndex` of the C struct are never
read or written in the source file and are omitted. -/
structure EngineState where
  SINOutputPinState : Bool
  syncronised : Bool
  preamble : Nat               -- uint16_t
  bitMaskMap : Nat             -- uint16_t
  mode : gpb_sio_mode_t
  rx_buff : Nat                -- uint16_t
  tx_buff : Nat                -- uint16_t
  initReceived : Bool
  printInstructionReceived : Bool
  printInstructionBuffer : List Nat   -- uint8_t[4]
  dataPacketReceived : Bool
  dataBuffer : gpb_cbuff_t
  dataEndPacketReceived : Bool
  breakPacketReceived : Bool
  nulPacketReceived : Bool
  packetState : gbp_pktIO_parse_state_t
  command : Nat                -- uint8_t
  compression : Nat            -- uint8_t
  data_length : Nat            -- uint16_t
  data_i : Nat                 -- uint16_t
  checksum : Nat               -- uint16_t
  checksumCalc : Nat           -- uint16_t
  statusBuffer : Nat           -- uint16_t
  packetReceivedNotify : Bool
  timeout_ms : Nat             -- uint32_t
  busyPacketCountdown : Int    -- int
  untransPacketCountdown : Int -- int
  dataPacketCountdown : Int    -- int
deriving DecidableEq, Repr

/-- `gpb_sio_next` (gbp_serial_io.cpp:130-158).  In the little-endian case
the C builds the TX word from two OR'd operands on disjoint byte fields,
`((txdata >> 8) & 0x00FF) | ((txdata << 8) & 0xFF00)`, written here as the
equivalent sum of the two byte fields. -/
def gpb_sio_next (mode : gpb_sio_mode_t) (txdata : Nat) (st : EngineState) :
    EngineState :=
  let st := { st with rx_buff := 0, mode := mode }
  match mode with
  | .GPB_SIO_MODE_RESET =>
      { st with bitMaskMap := 0, SINOutputPinState := false,
                tx_buff := 0xFFFF, syncronised := false }
  | .GPB_SIO_MODE_8BITS =>
      { st with bitMaskMap := 1 <<< 7, tx_buff := txdata }
  | .GPB_SIO_MODE_16BITS_BIG_ENDIAN =>
      { st with bitMaskMap := 1 <<< 15, tx_buff := txdata }
  | .GPB_SIO_MODE_16BITS_LITTLE_ENDIAN =>
      { st with bitMaskMap := 1 <<< 15,
                tx_buff := (txdata / 256) % 256 + (txdata % 256) * 256 }

/-- `gpb_sio_getWord` (gbp_serial_io.cpp:160-179); the little-endian case
assembles `((rx >> 8) & 0x00FF) | ((rx << 8) & 0xFF00)` from disjoint byte
fields, written as their sum. -/
def gpb_sio_getWord (st : EngineState) : Nat :=
  match st.mode with
  | .GPB_SIO_MODE_RESET => 0
  | .GPB_SIO_MODE_8BITS => st.rx_buff % 256
  | .GPB_SIO_MODE_16BITS_BIG_ENDIAN => st.rx_buff % 65536
  | .GPB_SIO_MODE_16BITS_LITTLE_ENDIAN =>
      (st.rx_buff / 256) % 256 + (st.rx_buff % 256) * 256

/-- `gpb_sio_getByte` (gbp_serial_io.cpp:181-189). -/
def gpb_sio_getByte (bytePos : Nat) (st : EngineState) : Nat :=
  match bytePos with
  | 0 => st.rx_buff % 256
  | 1 => (st.rx_buff / 256) % 256
  | _ => 0

/-- The eight consecutive clear-to-false status macro calls, identical in
`gpb_serial_io_reset` (gbp_serial_io.cpp:249-256) and in the BREAK branch
of the checksum-state command switch (gbp_serial_io.cpp:543-550). -/
def gpb_status_bits_clear_all (s : Nat) : Nat :=
  gpb_status_bit_update_checksum_error
    (gpb_status_bit_update_printer_busy
      (gpb_status_bit_update_print_buffer_full
        (gpb_status_bit_update_unprocessed_data
          (gpb_status_bit_update_packet_error
            (gpb_status_bit_update_paper_jam
              (gpb_status_bit_update_other_error
                (gpb_status_bit_update_low_battery s false)
                false)
              false)
            false)
          false)
        false)
      false)
    false

/-- `gpb_serial_io_reset` (gbp_serial_io.cpp:240-267).  The
`gpb_cbuff_ResetTemp` call is guarded by `FEATURE_CHECKSUM_SUPPORTED` and
compiled out. -/
def gpb_serial_io_reset (st : EngineState) : EngineState :=
  let st := { st with syncronised := false, rx_buff := 0, tx_buff := 0,
                      SINOutputPinState := false, bitMaskMap := 0 }
  let st := { st with statusBuffer := gpb_status_bits_clear_all st.statusBuffer }
  { st with dataBuffer := gpb_cbuff_Reset st.dataBuffer }

/-- `gpb_serial_io_init` (gbp_serial_io.cpp:269-283); the C first zeroes
`statusBuffer` and then stores the device id in its high byte. -/
def gpb_serial_io_init (buffSize : Nat) (st : EngineState) : EngineState :=
  let st := { st with statusBuffer := GBP_DEVICE_ID <<< 8,
                      busyPacketCountdown := 0 }
  let st := { st with dataBuffer := gpb_cbuff_Init buffSize }
  gpb_serial_io_reset st

/-- `gbp_serial_io_timeout_handler` (gbp_serial_io.cpp:194-212); returns the
new state and the C return value (true when a reset was performed). -/
def gbp_serial_io_timeout_handler (st : EngineState) (elapsed_ms : Nat) :
    EngineState × Bool :=
  if st.breakPacketReceived then (gpb_serial_io_reset st, true)
  else if 0 < st.timeout_ms then
    let t := if elapsed_ms < st.timeout_ms then st.timeout_ms - elapsed_ms else 0
    let st := { st with timeout_ms := t }
    if t = 0 then (gpb_serial_io_reset st, true) else (st, false)
  else (st, false)

/-- `gbp_serial_io_dataBuff_getByteCount` (gbp_serial_io.cpp:214-217). -/
def gbp_serial_io_dataBuff_getByteCount (st : EngineState) : Nat :=
  gpb_cbuff_Count st.dataBuffer

/-- `gbp_serial_io_dataBuff_getByte` (gbp_serial_io.cpp:219-228): dequeues
one byte and clears the unprocessed-data status bit when the buffer has
become empty. -/
def gbp_serial_io_dataBuff_getByte (st : EngineState) : Nat × EngineState :=
  let p := gpb_cbuff_Dequeue st.dataBuffer
  let st := { st with dataBuffer := p.2 }
  let st :=
    if gpb_cbuff_Count st.dataBuffer = 0 then
      { st with statusBuffer :=
          gpb_status_bit_update_unprocessed_data st.statusBuffer false }
    else st
  (p.1, st)

/-- The C file-scope structs are zero-initialised at program start, before
`gpb_serial_io_init` runs; enumeration value 0 is the first enumerator of
both enums. -/
def zeroedState : EngineState :=
  { SINOutputPinState := false, syncronised := false, preamble := 0,
    bitMaskMap := 0, mode := .GPB_SIO_MODE_RESET, rx_buff := 0, tx_buff := 0,
    initReceived := false, printInstructionReceived := false,
    printInstructionBuffer := [0, 0, 0, 0], dataPacketReceived := false,
    dataBuffer := { capacity := 0, buff := [] },
    dataEndPacketReceived := false, breakPacketReceived := false,
    nulPacketReceived := false,
    packetState := .GBP_PKT10_PARSE_HEADER_COMMAND_AND_COMPRESSION,
    command := 0, compression := 0, data_length := 0, data_i := 0,
    checksum := 0, checksumCalc := 0, statusBuffer := 0,
    packetReceivedNotify := false, timeout_ms := 0,
    busyPacketCountdown := 0, untransPacketCountdown := 0,
    dataPacketCountdown := 0 }

/-- The engine state right after `gpb_serial_io_init(buffSize, ptr)` on the
zero-initialised globals. -/
def initialState (buffSize : Nat) : EngineState :=
  gpb_serial_io_init buffSize zeroedState

/-- `GBP_PKT10_PARSE_HEADER_COMMAND_AND_COMPRESSION` case of the packet
state switch (gbp_serial_io.cpp:402-411). -/
def parse_header_command_and_compression (st : EngineState) : EngineState :=
  let st := { st with command := gpb_sio_getByte 1 st,
                      compression := gpb_sio_getByte 0 st,
                      checksumCalc := 0,
                      packetState := .GBP_PKT10_PARSE_HEADER_DATA_LENGTH }
  gpb_sio_next .GPB_SIO_MODE_16BITS_LITTLE_ENDIAN 0 st

/-- `GBP_PKT10_PARSE_HEADER_DATA_LENGTH` case (gbp_serial_io.cpp:412-445);
for PRINT the length is clamped to at most 4 (line 438, size limit
guard). -/
def parse_header_data_length (st : EngineState) : EngineState :=
  let st := { st with data_length := gpb_sio_getWord st, data_i := 0 }
  if st.command = GBP_COMMAND_DATA then
    if st.data_length ≠ 0 then
      gpb_sio_next .GPB_SIO_MODE_8BITS 0
        { st with packetState := .GBP_PKT10_PARSE_DATA_PAYLOAD }
    else
      gpb_sio_next .GPB_SIO_MODE_16BITS_LITTLE_ENDIAN 0
        { st with packetState := .GBP_PKT10_PARSE_CHECKSUM }
  else if st.command = GBP_COMMAND_PRINT then
    let st := gpb_sio_next .GPB_SIO_MODE_8BITS 0
      { st with packetState := .GBP_PKT10_PARSE_DATA_PAYLOAD }
    { st with data_length := if 4 < st.data_length then 4 else st.data_length }
  else
    gpb_sio_next .GPB_SIO_MODE_16BITS_LITTLE_ENDIAN 0
      { st with packetState := .GBP_PKT10_PARSE_CHECKSUM }

/-- `GBP_PKT10_PARSE_DATA_PAYLOAD` case (gbp_serial_io.cpp:446-479): route
the received byte by command, fold it into the running checksum, advance
`data_i`, and leave for the checksum state once `data_i >= data_length`. -/
def parse_data_payload (st : EngineState) : EngineState :=
  let st :=
    if st.command = GBP_COMMAND_DATA then
      { st with dataBuffer := gpb_cbuff_EnqueueTemp st.dataBuffer (st.rx_buff % 256) }
    else if st.command = GBP_COMMAND_PRINT then
      { st with printInstructionBuffer :=
          st.printInstructionBuffer.set st.data_i (st.rx_buff % 256) }
    else st
  let st := { st with checksumCalc := (st.checksumCalc + gpb_sio_getByte 0 st) % 65536 }
  let st := { st with data_i := (st.data_i + 1) % 65536 }
  if st.data_length ≤ st.data_i then
    gpb_sio_next .GPB_SIO_MODE_16BITS_LITTLE_ENDIAN 0
      { st with packetState := .GBP_PKT10_PARSE_CHECKSUM }
  else
    gpb_sio_next .GPB_SIO_MODE_8BITS 0
      { st with packetState := .GBP_PKT10_PARSE_DATA_PAYLOAD }

/-- The INQUIRY branch of the checksum-state command switch
(gbp_serial_io.cpp:551-573).  The BREAK case of the C switch has no
`break` statement and falls through into this block. -/
def checksum_inquiry_countdown (st : EngineState) : EngineState :=
  if 0 < st.untransPacketCountdown then
    let st := { st with untransPacketCountdown := st.untransPacketCountdown - 1 }
    if st.untransPacketCountdown = 0 then
      let st := { st with statusBuffer :=
          gpb_status_bit_update_unprocessed_data st.statusBuffer false }
      if 0 < st.busyPacketCountdown then
        let st := { st with statusBuffer :=
            gpb_status_bit_update_printer_busy st.statusBuffer true }
        { st with statusBuffer :=
            gpb_status_bit_update_print_buffer_full st.statusBuffer true }
      else st
    else st
  else if 0 < st.busyPacketCountdown then
    let st := { st with busyPacketCountdown := st.busyPacketCountdown - 1 }
    if st.busyPacketCountdown = 0 then
      { st with statusBuffer :=
          gpb_status_bit_update_printer_busy st.statusBuffer false }
    else st
  else st

/-- The pre-dummy command switch of the checksum state
(gbp_serial_io.cpp:527-576): the per-command status update. -/
def checksum_command_update (st : EngineState) : EngineState :=
  if st.command = GBP_COMMAND_INIT then
    { st with dataPacketCountdown := 6, untransPacketCountdown := 0,
              busyPacketCountdown := 0,
              statusBuffer :=
                gpb_status_bit_update_print_buffer_full st.statusBuffer false }
  else if st.command = GBP_COMMAND_PRINT then
    { st with busyPacketCountdown := GPB_BUSY_PACKET_COUNT }
  else if st.command = GBP_COMMAND_DATA then
    { st with untransPacketCountdown := 3 }
  else if st.command = GBP_COMMAND_BREAK then
    checksum_inquiry_countdown
      { st with statusBuffer := gpb_status_bits_clear_all st.statusBuffer }
  else if st.command = GBP_COMMAND_INQUIRY then
    checksum_inquiry_countdown st
  else st

/-- `GBP_PKT10_PARSE_CHECKSUM` case (gbp_serial_io.cpp:480-581): read the
received checksum, fold the header bytes into the computed checksum, apply
the pre-dummy per-command status update, and arm the dummy transfer with
the status word.  The checksum-comparison and test blocks are compiled
out. -/
def parse_checksum (st : EngineState) : EngineState :=
  let st := { st with checksum := gpb_sio_getWord st }
  let st := { st with checksumCalc := (st.checksumCalc + st.command) % 65536 }
  let st := { st with checksumCalc := (st.checksumCalc + st.compression) % 65536 }
  let st := { st with checksumCalc := (st.checksumCalc + (st.data_length / 256) % 256) % 65536 }
  let st := { st with checksumCalc := (st.checksumCalc + st.data_length % 256) % 65536 }
  let st := checksum_command_update st
  let st := { st with packetState := .GBP_PKT10_PARSE_DUMMY }
  gpb_sio_next .GPB_SIO_MODE_16BITS_BIG_ENDIAN st.statusBuffer st

/-- The post-dummy command switch of the dummy state
(gbp_serial_io.cpp:584-617): the per-command status update. -/
def dummy_status_update (st : EngineState) : EngineState :=
  if st.command = GBP_COMMAND_DATA then
    let st :=
      if 0 < st.dataPacketCountdown then
        let st := { st with dataPacketCountdown := st.dataPacketCountdown - 1 }
        if st.dataPacketCountdown = 0 then
          { st with statusBuffer :=
              gpb_status_bit_update_print_buffer_full st.statusBuffer true }
        else st
      else st
    let st := { st with statusBuffer :=
        gpb_status_bit_update_unprocessed_data st.statusBuffer true }
    if st.data_length = 0 then
      { st with statusBuffer :=
          gpb_status_bit_update_unprocessed_data st.statusBuffer false }
    else st
  else if st.command = GBP_COMMAND_INQUIRY then
    if st.untransPacketCountdown = 0 ∧ st.busyPacketCountdown = 0 then
      { st with statusBuffer :=
          gpb_status_bit_update_print_buffer_full st.statusBuffer false }
    else st
  else st

/-- The notification switch of the dummy state (gbp_serial_io.cpp:619-641):
raise the per-command received flag. -/
def dummy_notify_update (st : EngineState) : EngineState :=
  if st.command = GBP_COMMAND_INIT then { st with initReceived := true }
  else if st.command = GBP_COMMAND_PRINT then
    { st with printInstructionReceived := true }
  else if st.command = GBP_COMMAND_DATA then
    if 0 < st.data_length then { st with dataPacketReceived := true }
    else { st with dataEndPacketReceived := true }
  else if st.command = GBP_COMMAND_BREAK then
    { st with breakPacketReceived := true }
  else if st.command = GBP_COMMAND_INQUIRY then
    { st with nulPacketReceived := true }
  else st

/-- `GBP_PKT10_PARSE_DUMMY` case (gbp_serial_io.cpp:582-664): post-dummy
per-command status update, notification flags, then return the shifter to
reset and the parser to the first header state.  The temp-buffer block is
compiled out. -/
def parse_dummy (st : EngineState) : EngineState :=
  let st := dummy_status_update st
  let st := dummy_notify_update st
  let st := { st with packetState := .GBP_PKT10_PARSE_HEADER_COMMAND_AND_COMPRESSION }
  let st := gpb_sio_next .GPB_SIO_MODE_RESET 0 st
  let st := { st with SINOutputPinState := false }
  { st with packetReceivedNotify := true }

/-- Lines 395-672 of `gpb_serial_io_OnChange_ISR`: refill the packet
timeout and execute one packet-state transition.  This runs when the active
shift transfer has just clocked its last bit (the C `default` case is
unreachable because the Lean match is total over the enum). -/
def gbp_packet_parse (st : EngineState) : EngineState :=
  let st := { st with timeout_ms := GBP_PKT10_TIMEOUT_MS }
  match st.packetState with
  | .GBP_PKT10_PARSE_HEADER_COMMAND_AND_COMPRESSION =>
      parse_header_command_and_compression st
  | .GBP_PKT10_PARSE_HEADER_DATA_LENGTH => parse_header_data_length st
  | .GBP_PKT10_PARSE_DATA_PAYLOAD => parse_data_payload st
  | .GBP_PKT10_PARSE_CHECKSUM => parse_checksum st
  | .GBP_PKT10_PARSE_DUMMY => parse_dummy st

/-- `gpb_serial_io_OnChange_ISR` (gbp_serial_io.cpp:293-688), dual-edge
build.  Returns the new state and the pin level the slave output line is
held at until the next edge. -/
def gpb_serial_io_OnChange_ISR (GBP_SCLK GBP_SOUT : Bool) (st : EngineState) :
    EngineState × Bool :=
  if st.syncronised = false then
    if GBP_SCLK = false then (st, false)
    else
      let st := { st with preamble := st.preamble ||| (if GBP_SOUT then 1 else 0) }
      if st.preamble % 65536 ≠ GBP_SYNC_WORD then
        ({ st with preamble := (st.preamble <<< 1) % 65536 }, false)
      else
        let st := { st with
          packetState := .GBP_PKT10_PARSE_HEADER_COMMAND_AND_COMPRESSION,
          preamble := 0, syncronised := true }
        (gpb_sio_next .GPB_SIO_MODE_16BITS_BIG_ENDIAN 0 st, false)
  else if 0 < st.bitMaskMap then
    if GBP_SCLK then
      let st := { st with
        rx_buff := st.rx_buff ||| (if GBP_SOUT then st.bitMaskMap % 65536 else 0),
        bitMaskMap := st.bitMaskMap >>> 1 }
      if 0 < st.bitMaskMap then (st, st.SINOutputPinState)
      else
        let st := gbp_packet_parse st
        (st, st.SINOutputPinState)
    else
      let st := { st with SINOutputPinState := 0 < (st.bitMaskMap &&& st.tx_buff) }
      (st, st.SINOutputPinState)
  else
    let st := gbp_packet_parse st
    (st, st.SINOutputPinState)

/-- Transfer-completion semantics of the engine: a full shift transfer has
assembled the raw shift-register value `w` (wire bits MSB first, so for a
two-byte transfer `w = first * 256 + second`) and the ISR falls through to
the packet layer. -/
def gpb_serial_io_receiveWord (w : Nat) (st : EngineState) : EngineState :=
  gbp_packet_parse { st with rx_buff := w }

/-- Feed a sequence of completed transfer words to the packet layer. -/
def feedWords (ws : List Nat) (st : EngineState) : EngineState :=
  ws.foldl (fun s w => gpb_serial_io_receiveWord w s) st

/-- Raw shift-register image of a little-endian wire field of value `v`:
the low byte travels first and lands in the high half of the MSB-first
shift register. -/
def leRaw (v : Nat) : Nat := (v % 256) * 256 + (v / 256) % 256

/-- Word-level wire image of one packet after its sync word: header word
(command, compression), length word, payload bytes, checksum word, one
16-bit dummy transfer. -/
def packetWords (cmd comp len : Nat) (payload : List Nat) (chk : Nat) :
    List Nat :=
  ((cmd % 256) * 256 + comp % 256) :: leRaw len :: (payload ++ [leRaw chk, 0])

/-- The checksum a well-formed packet carries: sum of command byte,
compression byte, length low byte, length high byte and all payload bytes,
mod 65536. -/
def packetChecksum (cmd comp len : Nat) (payload : List Nat) : Nat :=
  (cmd + comp + (len / 256) % 256 + len % 256 + payload.sum) % 65536

/-- Dequeue `n` bytes through `gbp_serial_io_dataBuff_getByte`. -/
def dataBuffGetBytes : Nat → EngineState → List Nat × EngineState
  | 0, st => ([], st)
  | n + 1, st =>
      let p := gbp_serial_io_dataBuff_getByte st
      let q := dataBuffGetBytes n p.2
      (p.1 :: q.1, q.2)

/-- Engine states reachable through the module's interface: a fresh init on
the zero-initialised globals, clock edges (also abstracted as completed
transfer words), the foreground timeout tick, an explicit reset, draining
the data buffer, and re-initialisation. -/
inductive Reachable : EngineState → Prop where
  | init_start : ∀ buffSize, Reachable (initialState buffSize)
  | edge : ∀ st sclk sout, Reachable st →
      Reachable (gpb_serial_io_OnChange_ISR sclk sout st).1
  | word : ∀ st w, Reachable st → Reachable (gpb_serial_io_receiveWord w st)
  | tick : ∀ st e, Reachable st →
      Reachable (gbp_serial_io_timeout_handler st e).1
  | reset : ∀ st, Reachable st → Reachable (gpb_serial_io_reset st)
  | drain : ∀ st, Reachable st →
      Reachable (gbp_serial_io_dataBuff_getByte st).2
  | reinit : ∀ st buffSize, Reachable st →
      Reachable (gpb_serial_io_init buffSize st)

/-! Helper lemmas. -/

attribute [ext] gpb_cbuff_t EngineState

/-- Completing a transfer in the first header state parses the command and
compression bytes and arms the little-endian length transfer. -/
lemma receiveWord_header1 (st : EngineState) (w : Nat)
    (hps : st.packetState = .GBP_PKT10_PARSE_HEADER_COMMAND_AND_COMPRESSION) :
    gpb_serial_io_receiveWord w st =
      { st with rx_buff := 0, mode := .GPB_SIO_MODE_16BITS_LITTLE_ENDIAN,
                bitMaskMap := 1 <<< 15, tx_buff := 0,
                command := (w / 256) % 256, compression := w % 256,
                checksumCalc := 0,
                packetState := .GBP_PKT10_PARSE_HEADER_DATA_LENGTH,
                timeout_ms := GBP_PKT10_TIMEOUT_MS } := by
  simp [gpb_serial_io_receiveWord, gbp_packet_parse, hps,
    parse_header_command_and_compression, gpb_sio_next, gpb_sio_getByte,
    GBP_PKT10_TIMEOUT_MS]

/-- Completing the length transfer of a DATA packet: non-zero length enters
the payload state on byte transfers, zero length goes straight to the
checksum state. -/
lemma receiveWord_header2_data (st : EngineState) (w : Nat)
    (hps : st.packetState = .GBP_PKT10_PARSE_HEADER_DATA_LENGTH)
    (hmode : st.mode = .GPB_SIO_MODE_16BITS_LITTLE_ENDIAN)
    (hcmd : st.command = GBP_COMMAND_DATA) :
    gpb_serial_io_receiveWord w st =
      if (w / 256) % 256 + (w % 256) * 256 ≠ 0 then
        { st with rx_buff := 0, mode := .GPB_SIO_MODE_8BITS,
                  bitMaskMap := 1 <<< 7, tx_buff := 0,
                  data_length := (w / 256) % 256 + (w % 256) * 256, data_i := 0,
                  packetState := .GBP_PKT10_PARSE_DATA_PAYLOAD,
                  timeout_ms := GBP_PKT10_TIMEOUT_MS }
      else
        { st with rx_buff := 0, mode := .GPB_SIO_MODE_16BITS_LITTLE_ENDIAN,
                  bitMaskMap := 1 <<< 15, tx_buff := 0,
                  data_length := (w / 256) % 256 + (w % 256) * 256, data_i := 0,
                  packetState := .GBP_PKT10_PARSE_CHECKSUM,
                  timeout_ms := GBP_PKT10_TIMEOUT_MS } := by
  simp [gpb_serial_io_receiveWord, gbp_packet_parse, hps, hmode,
    parse_header_data_length, gpb_sio_next, gpb_sio_getWord, hcmd,
    GBP_COMMAND_DATA, GBP_COMMAND_PRINT, GBP_PKT10_TIMEOUT_MS]

/-- Completing the length transfer of a PRINT packet: the payload state is
always entered and the length is clamped to at most 4. -/
lemma receiveWord_header2_print (st : EngineState) (w : Nat)
    (hps : st.packetState = .GBP_PKT10_PARSE_HEADER_DATA_LENGTH)
    (hmode : st.mode = .GPB_SIO_MODE_16BITS_LITTLE_ENDIAN)
    (hcmd : st.command = GBP_COMMAND_PRINT) :
    gpb_serial_io_receiveWord w st =
      { st with rx_buff := 0, mode := .GPB_SIO_MODE_8BITS,
                bitMaskMap := 1 <<< 7, tx_buff := 0,
                data_length :=
                  if 4 < (w / 256) % 256 + (w % 256) * 256 then 4
                  else (w / 256) % 256 + (w % 256) * 256,
                data_i := 0,
                packetState := .GBP_PKT10_PARSE_DATA_PAYLOAD,
                timeout_ms := GBP_PKT10_TIMEOUT_MS } := by
  simp [gpb_serial_io_receiveWord, gbp_packet_parse, hps, hmode,
    parse_header_data_length, gpb_sio_next, gpb_sio_getWord, hcmd,
    GBP_COMMAND_DATA, GBP_COMMAND_PRINT, GBP_PKT10_TIMEOUT_MS]

/-- Completing the length transfer of a packet that is neither DATA nor
PRINT: straight to the checksum state. -/
lemma receiveWord_header2_other (st : EngineState) (w : Nat)
    (hps : st.packetState = .GBP_PKT10_PARSE_HEADER_DATA_LENGTH)
    (hmode : st.mode = .GPB_SIO_MODE_16BITS_LITTLE_ENDIAN)
    (hc1 : st.command ≠ GBP_COMMAND_DATA)
    (hc2 : st.command ≠ GBP_COMMAND_PRINT) :
    gpb_serial_io_receiveWord w st =
      { st with rx_buff := 0, mode := .GPB_SIO_MODE_16BITS_LITTLE_ENDIAN,
                bitMaskMap := 1 <<< 15, tx_buff := 0,
                data_length := (w / 256) % 256 + (w % 256) * 256, data_i := 0,
                packetState := .GBP_PKT10_PARSE_CHECKSUM,
                timeout_ms := GBP_PKT10_TIMEOUT_MS } := by
  simp [gpb_serial_io_receiveWord, gbp_packet_parse, hps, hmode,
    parse_header_data_length, gpb_sio_next, gpb_sio_getWord, hc1, hc2,
    GBP_PKT10_TIMEOUT_MS]

/-- One payload byte of a DATA packet: the byte is enqueued, folded into the
checksum, and the parser either continues in the payload state or leaves
for the checksum state. -/
lemma receiveWord_payload_data (st : EngineState) (b : Nat)
    (hps : st.packetState = .GBP_PKT10_PARSE_DATA_PAYLOAD)
    (hcmd : st.command = GBP_COMMAND_DATA)
    (hb : b < 256)
    (hlt : st.data_i < st.data_length)
    (hlen : st.data_length ≤ 65535) :
    gpb_serial_io_receiveWord b st =
      if st.data_length ≤ st.data_i + 1 then
        { st with rx_buff := 0, mode := .GPB_SIO_MODE_16BITS_LITTLE_ENDIAN,
                  bitMaskMap := 1 <<< 15, tx_buff := 0,
                  packetState := .GBP_PKT10_PARSE_CHECKSUM,
                  data_i := st.data_i + 1,
                  checksumCalc := (st.checksumCalc + b) % 65536,
                  dataBuffer := gpb_cbuff_EnqueueTemp st.dataBuffer b,
                  timeout_ms := GBP_PKT10_TIMEOUT_MS }
      else
        { st with rx_buff := 0, mode := .GPB_SIO_MODE_8BITS,
                  bitMaskMap := 1 <<< 7, tx_buff := 0,
                  packetState := .GBP_PKT10_PARSE_DATA_PAYLOAD,
                  data_i := st.data_i + 1,
                  checksumCalc := (st.checksumCalc + b) % 65536,
                  dataBuffer := gpb_cbuff_EnqueueTemp st.dataBuffer b,
                  timeout_ms := GBP_PKT10_TIMEOUT_MS } := by
  have hmod : (st.data_i + 1) % 65536 = st.data_i + 1 := by omega
  have hbmod : b % 256 = b := by omega
  simp [gpb_serial_io_receiveWord, gbp_packet_parse, hps,
    parse_data_payload, gpb_sio_next, gpb_sio_getByte, hcmd,
    GBP_COMMAND_DATA, GBP_COMMAND_PRINT, GBP_PKT10_TIMEOUT_MS, hmod, hbmod]

/-- Feeding the whole payload of a DATA packet byte by byte. -/
lemma feed_payload_data : ∀ (B : List Nat) (st : EngineState),
    st.packetState = .GBP_PKT10_PARSE_DATA_PAYLOAD →
    st.command = GBP_COMMAND_DATA →
    B ≠ [] →
    st.data_i + B.length = st.data_length →
    st.data_length ≤ 65535 →
    (∀ b ∈ B, b < 256) →
    feedWords B st =
      { st with rx_buff := 0, mode := .GPB_SIO_MODE_16BITS_LITTLE_ENDIAN,
                bitMaskMap := 1 <<< 15, tx_buff := 0,
                packetState := .GBP_PKT10_PARSE_CHECKSUM,
                data_i := st.data_length,
                checksumCalc := (st.checksumCalc + B.sum) % 65536,
                dataBuffer := B.foldl gpb_cbuff_EnqueueTemp st.dataBuffer,
                timeout_ms := GBP_PKT10_TIMEOUT_MS } := by
  intro B
  induction B with
  | nil => intro st _ _ hne _ _ _; exact absurd rfl hne
  | cons b rest ih =>
      intro st hps hcmd _ hcount hlen hbytes
      have hstep := receiveWord_payload_data st b hps hcmd
        (hbytes b (by simp)) (by simp at hcount; omega) hlen
      have hfeed : feedWords (b :: rest) st =
          feedWords rest (gpb_serial_io_receiveWord b st) := rfl
      rw [hfeed, hstep]
      by_cases hx : st.data_length ≤ st.data_i + 1
      · have hrest : rest = [] := by
          cases rest with
          | nil => rfl
          | cons r rs => exfalso; simp at hcount; omega
        subst hrest
        rw [if_pos hx]
        simp at hcount
        ext <;> simp [feedWords] <;> omega
      · rw [if_neg hx]
        rw [ih _ (by simp) (by simp [hcmd])
          (by cases rest with
              | nil => exfalso; simp at hcount; omega
              | cons r rs => simp
              )
          (by simp at hcount ⊢; omega) (by simp; exact hlen)
          (fun x hmem => hbytes x (by simp [hmem]))]
        ext <;> simp <;> omega

/-- Arming a new transfer leaves the data buffer alone. -/
lemma gpb_sio_next_dataBuffer (m : gpb_sio_mode_t) (t : Nat) (st : EngineState) :
    (gpb_sio_next m t st).dataBuffer = st.dataBuffer := by cases m <;> rfl

/-- Arming a new transfer leaves the parse state alone. -/
lemma gpb_sio_next_packetState (m : gpb_sio_mode_t) (t : Nat) (st : EngineState) :
    (gpb_sio_next m t st).packetState = st.packetState := by cases m <;> rfl

/-- Arming a new transfer leaves the command alone. -/
lemma gpb_sio_next_command (m : gpb_sio_mode_t) (t : Nat) (st : EngineState) :
    (gpb_sio_next m t st).command = st.command := by cases m <;> rfl

/-- Arming a new transfer leaves the data length alone. -/
lemma gpb_sio_next_data_length (m : gpb_sio_mode_t) (t : Nat) (st : EngineState) :
    (gpb_sio_next m t st).data_length = st.data_length := by cases m <;> rfl

/-- Arming a new transfer leaves the received checksum alone. -/
lemma gpb_sio_next_checksum (m : gpb_sio_mode_t) (t : Nat) (st : EngineState) :
    (gpb_sio_next m t st).checksum = st.checksum := by cases m <;> rfl

/-- Arming a new transfer leaves the computed checksum alone. -/
lemma gpb_sio_next_checksumCalc (m : gpb_sio_mode_t) (t : Nat) (st : EngineState) :
    (gpb_sio_next m t st).checksumCalc = st.checksumCalc := by cases m <;> rfl

/-- Arming a new transfer leaves the status word alone. -/
lemma gpb_sio_next_statusBuffer (m : gpb_sio_mode_t) (t : Nat) (st : EngineState) :
    (gpb_sio_next m t st).statusBuffer = st.statusBuffer := by cases m <;> rfl

/-- Arming a big-endian transfer loads the TX register with the word. -/
lemma gpb_sio_next_tx_BE (t : Nat) (st : EngineState) :
    (gpb_sio_next .GPB_SIO_MODE_16BITS_BIG_ENDIAN t st).tx_buff = t := rfl

/-- The INQUIRY countdown block leaves the data buffer alone. -/
lemma checksum_inquiry_countdown_dataBuffer (st : EngineState) :
    (checksum_inquiry_countdown st).dataBuffer = st.dataBuffer := by
  simp only [checksum_inquiry_countdown]; split_ifs <;> rfl

/-- The INQUIRY countdown block leaves the parse state alone. -/
lemma checksum_inquiry_countdown_packetState (st : EngineState) :
    (checksum_inquiry_countdown st).packetState = st.packetState := by
  simp only [checksum_inquiry_countdown]; split_ifs <;> rfl

/-- The INQUIRY countdown block leaves the command alone. -/
lemma checksum_inquiry_countdown_command (st : EngineState) :
    (checksum_inquiry_countdown st).command = st.command := by
  simp only [checksum_inquiry_countdown]; split_ifs <;> rfl

/-- The INQUIRY countdown block leaves the data length alone. -/
lemma checksum_inquiry_countdown_data_length (st : EngineState) :
    (checksum_inquiry_countdown st).data_length = st.data_length := by
  simp only [checksum_inquiry_countdown]; split_ifs <;> rfl

/-- The INQUIRY countdown block leaves the received checksum alone. -/
lemma checksum_inquiry_countdown_checksum (st : EngineState) :
    (checksum_inquiry_countdown st).checksum = st.checksum := by
  simp only [checksum_inquiry_countdown]; split_ifs <;> rfl

/-- The INQUIRY countdown block leaves the computed checksum alone. -/
lemma checksum_inquiry_countdown_checksumCalc (st : EngineState) :
    (checksum_inquiry_countdown st).checksumCalc = st.checksumCalc := by
  simp only [checksum_inquiry_countdown]; split_ifs <;> rfl

/-- The pre-dummy command switch leaves the data buffer alone. -/
lemma checksum_command_update_dataBuffer (st : EngineState) :
    (checksum_command_update st).dataBuffer = st.dataBuffer := by
  simp only [checksum_command_update]
  split_ifs <;> simp [checksum_inquiry_countdown_dataBuffer]

/-- The pre-dummy command switch leaves the parse state alone. -/
lemma checksum_command_update_packetState (st : EngineState) :
    (checksum_command_update st).packetState = st.packetState := by
  simp only [checksum_command_update]
  split_ifs <;> simp [checksum_inquiry_countdown_packetState]

/-- The pre-dummy command switch leaves the command alone. -/
lemma checksum_command_update_command (st : EngineState) :
    (checksum_command_update st).command = st.command := by
  simp only [checksum_command_update]
  split_ifs <;> simp [checksum_inquiry_countdown_command]

/-- The pre-dummy command switch leaves the data length alone. -/
lemma checksum_command_update_data_length (st : EngineState) :
    (checksum_command_update st).data_length = st.data_length := by
  simp only [checksum_command_update]
  split_ifs <;> simp [checksum_inquiry_countdown_data_length]

/-- The pre-dummy command switch leaves the received checksum alone. -/
lemma checksum_command_update_checksum (st : EngineState) :
    (checksum_command_update st).checksum = st.checksum := by
  simp only [checksum_command_update]
  split_ifs <;> simp [checksum_inquiry_countdown_checksum]

/-- The pre-dummy command switch leaves the computed checksum alone. -/
lemma checksum_command_update_checksumCalc (st : EngineState) :
    (checksum_command_update st).checksumCalc = st.checksumCalc := by
  simp only [checksum_command_update]
  split_ifs <;> simp [checksum_inquiry_countdown_checksumCalc]

/-- The checksum-state transition never touches the data buffer. -/
lemma parse_checksum_dataBuffer (st : EngineState) :
    (parse_checksum st).dataBuffer = st.dataBuffer := by
  simp only [parse_checksum, gpb_sio_next_dataBuffer,
    checksum_command_update_dataBuffer]

/-- The checksum-state transition always moves to the dummy state. -/
lemma parse_checksum_packetState (st : EngineState) :
    (parse_checksum st).packetState = .GBP_PKT10_PARSE_DUMMY := by
  simp only [parse_checksum, gpb_sio_next_packetState]

/-- The checksum-state transition preserves the command. -/
lemma parse_checksum_command (st : EngineState) :
    (parse_checksum st).command = st.command := by
  simp only [parse_checksum, gpb_sio_next_command,
    checksum_command_update_command]

/-- The checksum-state transition preserves the data length. -/
lemma parse_checksum_data_length (st : EngineState) :
    (parse_checksum st).data_length = st.data_length := by
  simp only [parse_checksum, gpb_sio_next_data_length,
    checksum_command_update_data_length]

/-- The checksum-state transition stores the decoded received checksum. -/
lemma parse_checksum_checksum (st : EngineState) :
    (parse_checksum st).checksum = gpb_sio_getWord st := by
  simp only [parse_checksum, gpb_sio_next_checksum,
    checksum_command_update_checksum]

/-- The checksum-state transition folds the command, compression and the
two length bytes into the computed checksum. -/
lemma parse_checksum_checksumCalc (st : EngineState) :
    (parse_checksum st).checksumCalc =
      (st.checksumCalc + st.command + st.compression +
        st.data_length / 256 % 256 + st.data_length % 256) % 65536 := by
  simp only [parse_checksum, gpb_sio_next_checksumCalc,
    checksum_command_update_checksumCalc]
  omega

/-- The post-dummy command switch leaves the data buffer alone. -/
lemma dummy_status_update_dataBuffer (st : EngineState) :
    (dummy_status_update st).dataBuffer = st.dataBuffer := by
  simp only [dummy_status_update]
  split_ifs <;> rfl

/-- The notification switch leaves the data buffer alone. -/
lemma dummy_notify_update_dataBuffer (st : EngineState) :
    (dummy_notify_update st).dataBuffer = st.dataBuffer := by
  simp only [dummy_notify_update]
  split_ifs <;> rfl

/-- The dummy-state transition never touches the data buffer. -/
lemma parse_dummy_dataBuffer (st : EngineState) :
    (parse_dummy st).dataBuffer = st.dataBuffer := by
  simp only [parse_dummy, gpb_sio_next_dataBuffer,
    dummy_status_update_dataBuffer, dummy_notify_update_dataBuffer]

/-- Completing a transfer while in the checksum state runs
`parse_checksum` on the state holding the received word. -/
lemma receiveWord_at_checksum (st : EngineState) (w : Nat)
    (hps : st.packetState = .GBP_PKT10_PARSE_CHECKSUM) :
    gpb_serial_io_receiveWord w st =
      parse_checksum { st with rx_buff := w, timeout_ms := GBP_PKT10_TIMEOUT_MS } := by
  simp [gpb_serial_io_receiveWord, gbp_packet_parse, hps]

/-- Completing a transfer while in the dummy state runs `parse_dummy` on
the state holding the received word. -/
lemma receiveWord_at_dummy (st : EngineState) (w : Nat)
    (hps : st.packetState = .GBP_PKT10_PARSE_DUMMY) :
    gpb_serial_io_receiveWord w st =
      parse_dummy { st with rx_buff := w, timeout_ms := GBP_PKT10_TIMEOUT_MS } := by
  simp [gpb_serial_io_receiveWord, gbp_packet_parse, hps]

/-- Decoding a little-endian shift-register image recovers the field value. -/
lemma leRaw_decode (v : Nat) (hv : v < 65536) :
    (leRaw v / 256) % 256 + (leRaw v % 256) * 256 = v := by
  unfold leRaw
  have h1 : (v / 256) % 256 = v / 256 := by omega
  rw [h1]
  have h2 : (v % 256 * 256 + v / 256) / 256 = v % 256 := by omega
  have h3 : (v % 256 * 256 + v / 256) % 256 = v / 256 := by omega
  rw [h2, h3]
  omega

/-- An enqueue fold that fits in the remaining capacity appends. -/
lemma foldl_enqueue_append : ∀ (B : List Nat) (buf : gpb_cbuff_t),
    buf.buff.length + B.length ≤ buf.capacity →
    B.foldl gpb_cbuff_EnqueueTemp buf = { buf with buff := buf.buff ++ B } := by
  intro B
  induction B with
  | nil => intro buf _; simp [List.foldl]
  | cons b rest ih =>
      intro buf hroom
      simp only [List.foldl_cons]
      rw [show gpb_cbuff_EnqueueTemp buf b = { buf with buff := buf.buff ++ [b] } by
        unfold gpb_cbuff_EnqueueTemp
        rw [if_pos]
        simp at hroom ⊢
        omega]
      rw [ih _ (by simp at hroom ⊢; omega)]
      simp

/-- Draining exactly the buffer's content returns it in order. -/
lemma dataBuffGetBytes_drain : ∀ (D : List Nat) (st : EngineState),
    st.dataBuffer.buff = D → (dataBuffGetBytes D.length st).1 = D := by
  intro D
  induction D with
  | nil => intro st _; simp [dataBuffGetBytes]
  | cons d rest ih =>
      intro st hbuf
      simp only [List.length_cons, dataBuffGetBytes]
      have hdq : gbp_serial_io_dataBuff_getByte st =
          ((d, (gbp_serial_io_dataBuff_getByte st).2) :
            Nat × EngineState) := by
        unfold gbp_serial_io_dataBuff_getByte gpb_cbuff_Dequeue
        rw [hbuf]
      have hrest : (gbp_serial_io_dataBuff_getByte st).2.dataBuffer.buff = rest := by
        unfold gbp_serial_io_dataBuff_getByte gpb_cbuff_Dequeue
        rw [hbuf]
        simp [gpb_cbuff_Count]
        split <;> simp
      rw [hdq]
      simp only []
      rw [ih _ hrest]

/-- Unfolding lemmas for `feedWords`. -/
lemma feedWords_nil (st : EngineState) : feedWords [] st = st := rfl

/-- Feeding a word then the rest. -/
lemma feedWords_cons (w : Nat) (ws : List Nat) (st : EngineState) :
    feedWords (w :: ws) st = feedWords ws (gpb_serial_io_receiveWord w st) := rfl

/-- Feeding a concatenation feeds the two parts in order. -/
lemma feedWords_append (xs ys : List Nat) (st : EngineState) :
    feedWords (xs ++ ys) st = feedWords ys (feedWords xs st) := by
  simp [feedWords, List.foldl_append]

/-- Feeding the checksum and dummy words of a packet leaves the data buffer
alone. -/
lemma feed_tail_dataBuffer (s : EngineState) (wc wd : Nat)
    (hps : s.packetState = .GBP_PKT10_PARSE_CHECKSUM) :
    (gpb_serial_io_receiveWord wd (gpb_serial_io_receiveWord wc s)).dataBuffer
      = s.dataBuffer := by
  rw [receiveWord_at_checksum s wc hps]
  rw [receiveWord_at_dummy _ wd (by simp [parse_checksum_packetState])]
  rw [parse_dummy_dataBuffer]
  have h := parse_checksum_dataBuffer
    { s with rx_buff := wc, timeout_ms := GBP_PKT10_TIMEOUT_MS }
  simp at h
  simp [h]

/-- The data buffer after a whole DATA packet is the enqueue fold of its
payload. -/
lemma feed_data_packet_dataBuffer (st : EngineState) (B : List Nat) (chk : Nat)
    (hstate : st.packetState = .GBP_PKT10_PARSE_HEADER_COMMAND_AND_COMPRESSION)
    (hbytes : ∀ b ∈ B, b < 256)
    (hlen : B.length < 65536) :
    (feedWords (packetWords GBP_COMMAND_DATA 0 B.length B chk) st).dataBuffer
      = B.foldl gpb_cbuff_EnqueueTemp st.dataBuffer := by
  have h1 := receiveWord_header1 st ((GBP_COMMAND_DATA % 256) * 256 + 0 % 256) hstate
  set s1 := gpb_serial_io_receiveWord ((GBP_COMMAND_DATA % 256) * 256 + 0 % 256) st
    with hs1def
  have hs1ps : s1.packetState = .GBP_PKT10_PARSE_HEADER_DATA_LENGTH := by rw [h1]
  have hs1mode : s1.mode = .GPB_SIO_MODE_16BITS_LITTLE_ENDIAN := by rw [h1]
  have hs1cmd : s1.command = GBP_COMMAND_DATA := by rw [h1]; rfl
  have hs1buf : s1.dataBuffer = st.dataBuffer := by rw [h1]
  have h2 := receiveWord_header2_data s1 (leRaw B.length) hs1ps hs1mode hs1cmd
  rw [leRaw_decode B.length hlen] at h2
  set s2 := gpb_serial_io_receiveWord (leRaw B.length) s1 with hs2def
  have hpw : packetWords GBP_COMMAND_DATA 0 B.length B chk =
      ((GBP_COMMAND_DATA % 256) * 256 + 0 % 256) :: leRaw B.length ::
        (B ++ [leRaw chk, 0]) := rfl
  rw [hpw, feedWords_cons, feedWords_cons, ← hs1def, ← hs2def]
  rcases B with _ | ⟨b0, rest⟩
  · -- length 0: straight to the checksum state
    rw [if_neg (by simp)] at h2
    have hs2ps : s2.packetState = .GBP_PKT10_PARSE_CHECKSUM := by rw [h2]
    have hs2buf : s2.dataBuffer = s1.dataBuffer := by rw [h2]
    rw [show ([] : List Nat) ++ [leRaw chk, 0] = [leRaw chk, 0] from rfl,
      feedWords_cons, feedWords_cons, feedWords_nil]
    rw [feed_tail_dataBuffer s2 (leRaw chk) 0 hs2ps, hs2buf, hs1buf]
    simp
  · -- non-empty payload
    rw [if_pos (by simp)] at h2
    have hs2ps : s2.packetState = .GBP_PKT10_PARSE_DATA_PAYLOAD := by rw [h2]
    have hs2cmd : s2.command = GBP_COMMAND_DATA := by rw [h2]; simp [hs1cmd]
    have hs2di : s2.data_i = 0 := by rw [h2]
    have hs2dl : s2.data_length = (b0 :: rest).length := by rw [h2]
    have hs2buf : s2.dataBuffer = s1.dataBuffer := by rw [h2]
    rw [feedWords_append]
    have hrun := feed_payload_data (b0 :: rest) s2 hs2ps hs2cmd (by simp)
      (by rw [hs2di, hs2dl]; omega) (by rw [hs2dl]; omega) hbytes
    set s3 := feedWords (b0 :: rest) s2 with hs3def
    have hs3ps : s3.packetState = .GBP_PKT10_PARSE_CHECKSUM := by rw [hrun]
    have hs3buf : s3.dataBuffer = (b0 :: rest).foldl gpb_cbuff_EnqueueTemp s2.dataBuffer := by
      rw [hrun]
    rw [feedWords_cons, feedWords_cons, feedWords_nil]
    rw [feed_tail_dataBuffer s3 (leRaw chk) 0 hs3ps, hs3buf, hs2buf, hs1buf]



/-- Successive writes of the bytes of `B` into `l` starting at index `i`. -/
def setSeq (l : List Nat) (i : Nat) : List Nat → List Nat
  | [] => l
  | b :: rest => setSeq (l.set i b) (i + 1) rest

/-- One payload byte of a PRINT packet: the byte is recorded into the print
instruction buffer at `data_i`, folded into the checksum, and the parser
either continues in the payload state or leaves for the checksum state. -/
lemma receiveWord_payload_print (st : EngineState) (b : Nat)
    (hps : st.packetState = .GBP_PKT10_PARSE_DATA_PAYLOAD)
    (hcmd : st.command = GBP_COMMAND_PRINT)
    (hb : b < 256)
    (hdi : st.data_i < 65535) :
    gpb_serial_io_receiveWord b st =
      if st.data_length ≤ st.data_i + 1 then
        { st with rx_buff := 0, mode := .GPB_SIO_MODE_16BITS_LITTLE_ENDIAN,
                  bitMaskMap := 1 <<< 15, tx_buff := 0,
                  packetState := .GBP_PKT10_PARSE_CHECKSUM,
                  data_i := st.data_i + 1,
                  checksumCalc := (st.checksumCalc + b) % 65536,
                  printInstructionBuffer := st.printInstructionBuffer.set st.data_i b,
                  timeout_ms := GBP_PKT10_TIMEOUT_MS }
      else
        { st with rx_buff := 0, mode := .GPB_SIO_MODE_8BITS,
                  bitMaskMap := 1 <<< 7, tx_buff := 0,
                  packetState := .GBP_PKT10_PARSE_DATA_PAYLOAD,
                  data_i := st.data_i + 1,
                  checksumCalc := (st.checksumCalc + b) % 65536,
                  printInstructionBuffer := st.printInstructionBuffer.set st.data_i b,
                  timeout_ms := GBP_PKT10_TIMEOUT_MS } := by
  have hmod : (st.data_i + 1) % 65536 = st.data_i + 1 := by omega
  have hbmod : b % 256 = b := by omega
  simp [gpb_serial_io_receiveWord, gbp_packet_parse, hps,
    parse_data_payload, gpb_sio_next, gpb_sio_getByte, hcmd,
    GBP_COMMAND_DATA, GBP_COMMAND_PRINT, GBP_PKT10_TIMEOUT_MS, hmod, hbmod]

/-- Feeding the whole payload of a PRINT packet byte by byte. -/
lemma feed_payload_print : ∀ (B : List Nat) (st : EngineState),
    st.packetState = .GBP_PKT10_PARSE_DATA_PAYLOAD →
    st.command = GBP_COMMAND_PRINT →
    B ≠ [] →
    st.data_i + B.length = st.data_length →
    st.data_length ≤ 65535 →
    (∀ b ∈ B, b < 256) →
    feedWords B st =
      { st with rx_buff := 0, mode := .GPB_SIO_MODE_16BITS_LITTLE_ENDIAN,
                bitMaskMap := 1 <<< 15, tx_buff := 0,
                packetState := .GBP_PKT10_PARSE_CHECKSUM,
                data_i := st.data_length,
                checksumCalc := (st.checksumCalc + B.sum) % 65536,
                printInstructionBuffer := setSeq st.printInstructionBuffer st.data_i B,
                timeout_ms := GBP_PKT10_TIMEOUT_MS } := by
  intro B
  induction B with
  | nil => intro st _ _ hne _ _ _; exact absurd rfl hne
  | cons b rest ih =>
      intro st hps hcmd _ hcount hlen hbytes
      have hstep := receiveWord_payload_print st b hps hcmd
        (hbytes b (by simp)) (by simp at hcount; omega)
      have hfeed : feedWords (b :: rest) st =
          feedWords rest (gpb_serial_io_receiveWord b st) := rfl
      rw [hfeed, hstep]
      by_cases hx : st.data_length ≤ st.data_i + 1
      · have hrest : rest = [] := by
          cases rest with
          | nil => rfl
          | cons r rs => exfalso; simp at hcount; omega
        subst hrest
        rw [if_pos hx]
        simp at hcount
        ext <;> simp [feedWords, setSeq] <;> omega
      · rw [if_neg hx]
        rw [ih _ (by simp) (by simp [hcmd])
          (by cases rest with
              | nil => exfalso; simp at hcount; omega
              | cons r rs => simp
              )
          (by simp at hcount ⊢; omega) (by simp; exact hlen)
          (fun x hmem => hbytes x (by simp [hmem]))]
        ext <;> simp [setSeq] <;> omega

/-- C1: for every byte sequence `B` delivered as the payload of a
well-formed DATA packet of length `|B|` (with room in the ring buffer),
after the packet's dummy phase completes, dequeuing `|B|` bytes from the
payload buffer yields exactly `B` in wire order. -/
theorem C1_data_roundtrip (st : EngineState) (B : List Nat)
    (hstate : st.packetState = .GBP_PKT10_PARSE_HEADER_COMMAND_AND_COMPRESSION)
    (hempty : st.dataBuffer.buff = [])
    (hroom : B.length ≤ st.dataBuffer.capacity)
    (hbytes : ∀ b ∈ B, b < 256)
    (hlen : B.length < 65536) :
    (dataBuffGetBytes B.length
      (feedWords (packetWords GBP_COMMAND_DATA 0 B.length B
        (packetChecksum GBP_COMMAND_DATA 0 B.length B)) st)).1 = B := by
  apply dataBuffGetBytes_drain
  rw [feed_data_packet_dataBuffer st B _ hstate hbytes hlen]
  rw [foldl_enqueue_append B st.dataBuffer (by rw [hempty]; simpa using hroom)]
  rw [hempty]
  simp

/-- C1, instantiated: a two-byte DATA payload round-trips on a freshly
initialised engine with a 4-byte ring buffer. -/
theorem C1_data_roundtrip_witness :
    (dataBuffGetBytes 2
      (feedWords (packetWords GBP_COMMAND_DATA 0 2 [0xAA, 0xBB]
        (packetChecksum GBP_COMMAND_DATA 0 2 [0xAA, 0xBB])) (initialState 4))).1
      = [0xAA, 0xBB] :=
  C1_data_roundtrip (initialState 4) [0xAA, 0xBB] (by decide) (by decide)
    (by decide) (by decide) (by decide)

end GbpEmu

namespace GbpEmu

/-- Reading the checksum word: the received checksum is decoded from the
little-endian wire field and the header bytes are folded into the computed
checksum. -/
lemma checksum_step_formula (s : EngineState) (chk : Nat)
    (hps : s.packetState = .GBP_PKT10_PARSE_CHECKSUM)
    (hmode : s.mode = .GPB_SIO_MODE_16BITS_LITTLE_ENDIAN)
    (hchk : chk < 65536) :
    (gpb_serial_io_receiveWord (leRaw chk) s).checksum = chk ∧
    (gpb_serial_io_receiveWord (leRaw chk) s).checksumCalc =
      (s.checksumCalc + s.command + s.compression +
        s.data_length / 256 % 256 + s.data_length % 256) % 65536 := by
  rw [receiveWord_at_checksum s (leRaw chk) hps]
  constructor
  · rw [parse_checksum_checksum]
    simp [gpb_sio_getWord, hmode]
    exact leRaw_decode chk hchk
  · rw [parse_checksum_checksumCalc]

/-- The payload shapes the engine consumes: DATA takes any length, PRINT
between one and four bytes, every other command none. -/
def payloadShapeOk (cmd : Nat) (B : List Nat) : Prop :=
  cmd = GBP_COMMAND_DATA ∨
  (cmd = GBP_COMMAND_PRINT ∧ 1 ≤ B.length ∧ B.length ≤ 4) ∨
  (cmd ≠ GBP_COMMAND_DATA ∧ cmd ≠ GBP_COMMAND_PRINT ∧ B = [])

/-- C2: the computed checksum accumulated by the checksum state equals the
mod-65536 sum of the command byte, the compression byte, the low and high
bytes of the length field, and all payload bytes (sync bytes excluded);
consequently, for a well-formed packet whose transmitted checksum equals
that sum, the computed checksum equals the received checksum. -/
theorem C2_checksum (st : EngineState) (cmd comp chk : Nat) (B : List Nat)
    (hstate : st.packetState = .GBP_PKT10_PARSE_HEADER_COMMAND_AND_COMPRESSION)
    (hcmd : cmd < 256) (hcomp : comp < 256)
    (hbytes : ∀ b ∈ B, b < 256) (hlen : B.length < 65536) (hchk : chk < 65536)
    (hshape : payloadShapeOk cmd B) :
    (feedWords ((cmd * 256 + comp) :: leRaw B.length :: (B ++ [leRaw chk])) st).checksumCalc
      = (cmd + comp + B.length / 256 % 256 + B.length % 256 + B.sum) % 65536 ∧
    (feedWords ((cmd * 256 + comp) :: leRaw B.length :: (B ++ [leRaw chk])) st).checksum = chk ∧
    (chk = (cmd + comp + B.length / 256 % 256 + B.length % 256 + B.sum) % 65536 →
      (feedWords ((cmd * 256 + comp) :: leRaw B.length :: (B ++ [leRaw chk])) st).checksum
        = (feedWords ((cmd * 256 + comp) :: leRaw B.length :: (B ++ [leRaw chk])) st).checksumCalc) := by
  rw [feedWords_cons]
  have h1 := receiveWord_header1 st (cmd * 256 + comp) hstate
  set s1 := gpb_serial_io_receiveWord (cmd * 256 + comp) st with hs1def
  have hs1ps : s1.packetState = .GBP_PKT10_PARSE_HEADER_DATA_LENGTH := by rw [h1]
  have hs1mode : s1.mode = .GPB_SIO_MODE_16BITS_LITTLE_ENDIAN := by rw [h1]
  have hs1cmd : s1.command = cmd := by
    rw [h1]; show (cmd * 256 + comp) / 256 % 256 = cmd; omega
  have hs1comp : s1.compression = comp := by
    rw [h1]; show (cmd * 256 + comp) % 256 = comp; omega
  have hs1calc : s1.checksumCalc = 0 := by rw [h1]
  rw [feedWords_cons]
  rcases hshape with hdata | ⟨hprint, hlb, hub⟩ | ⟨hnd, hnp, hBnil⟩
  · -- DATA
    have h2 := receiveWord_header2_data s1 (leRaw B.length) hs1ps hs1mode
      (by rw [hs1cmd, hdata])
    rw [leRaw_decode _ hlen] at h2
    set s2 := gpb_serial_io_receiveWord (leRaw B.length) s1 with hs2def
    rcases B with _ | ⟨b0, rest⟩
    · rw [if_neg (by simp)] at h2
      have hs2ps : s2.packetState = .GBP_PKT10_PARSE_CHECKSUM := by rw [h2]
      have hs2mode : s2.mode = .GPB_SIO_MODE_16BITS_LITTLE_ENDIAN := by rw [h2]
      have hs2cmd : s2.command = cmd := by rw [h2]; exact hs1cmd
      have hs2comp : s2.compression = comp := by rw [h2]; exact hs1comp
      have hs2calc : s2.checksumCalc = 0 := by rw [h2]; exact hs1calc
      have hs2dl : s2.data_length = 0 := by rw [h2]; rfl
      rw [show (([] : List Nat) ++ [leRaw chk]) = [leRaw chk] from rfl,
        feedWords_cons, feedWords_nil]
      have hc := checksum_step_formula s2 chk hs2ps hs2mode hchk
      refine ⟨?_, hc.1, ?_⟩
      · rw [hc.2, hs2calc, hs2cmd, hs2comp, hs2dl]; simp
      · intro h; rw [hc.1, hc.2, hs2calc, hs2cmd, hs2comp, hs2dl, h]; simp
    · rw [if_pos (by simp)] at h2
      have hs2ps : s2.packetState = .GBP_PKT10_PARSE_DATA_PAYLOAD := by rw [h2]
      have hs2cmd : s2.command = cmd := by rw [h2]; exact hs1cmd
      have hs2comp : s2.compression = comp := by rw [h2]; exact hs1comp
      have hs2calc : s2.checksumCalc = 0 := by rw [h2]; exact hs1calc
      have hs2di : s2.data_i = 0 := by rw [h2]
      have hs2dl : s2.data_length = (b0 :: rest).length := by rw [h2]
      rw [feedWords_append]
      have hrun := feed_payload_data (b0 :: rest) s2 hs2ps
        (by rw [hs2cmd, hdata]) (by simp) (by rw [hs2di, hs2dl]; omega)
        (by rw [hs2dl]; omega) hbytes
      set s3 := feedWords (b0 :: rest) s2 with hs3def
      have hs3ps : s3.packetState = .GBP_PKT10_PARSE_CHECKSUM := by rw [hrun]
      have hs3mode : s3.mode = .GPB_SIO_MODE_16BITS_LITTLE_ENDIAN := by rw [hrun]
      have hs3cmd : s3.command = cmd := by rw [hrun]; exact hs2cmd
      have hs3comp : s3.compression = comp := by rw [hrun]; exact hs2comp
      have hs3calc : s3.checksumCalc = (b0 :: rest).sum % 65536 := by
        rw [hrun]; show (s2.checksumCalc + (b0 :: rest).sum) % 65536 = _
        rw [hs2calc]; simp
      have hs3dl : s3.data_length = (b0 :: rest).length := by rw [hrun]; exact hs2dl
      rw [feedWords_cons, feedWords_nil]
      have hc := checksum_step_formula s3 chk hs3ps hs3mode hchk
      refine ⟨?_, hc.1, ?_⟩
      · rw [hc.2, hs3calc, hs3cmd, hs3comp, hs3dl]; omega
      · intro h
        rw [hc.1, hc.2, hs3calc, hs3cmd, hs3comp, hs3dl, h]; omega
  · -- PRINT
    have h2 := receiveWord_header2_print s1 (leRaw B.length) hs1ps hs1mode
      (by rw [hs1cmd, hprint])
    rw [leRaw_decode _ hlen, if_neg (by omega)] at h2
    set s2 := gpb_serial_io_receiveWord (leRaw B.length) s1 with hs2def
    have hs2ps : s2.packetState = .GBP_PKT10_PARSE_DATA_PAYLOAD := by rw [h2]
    have hs2cmd : s2.command = cmd := by rw [h2]; exact hs1cmd
    have hs2comp : s2.compression = comp := by rw [h2]; exact hs1comp
    have hs2calc : s2.checksumCalc = 0 := by rw [h2]; exact hs1calc
    have hs2di : s2.data_i = 0 := by rw [h2]
    have hs2dl : s2.data_length = B.length := by rw [h2]
    rw [feedWords_append]
    have hBne : B ≠ [] := by intro hB; rw [hB] at hlb; simp at hlb
    have hrun := feed_payload_print B s2 hs2ps (by rw [hs2cmd, hprint]) hBne
      (by rw [hs2di, hs2dl]; omega) (by rw [hs2dl]; omega) hbytes
    set s3 := feedWords B s2 with hs3def
    have hs3ps : s3.packetState = .GBP_PKT10_PARSE_CHECKSUM := by rw [hrun]
    have hs3mode : s3.mode = .GPB_SIO_MODE_16BITS_LITTLE_ENDIAN := by rw [hrun]
    have hs3cmd : s3.command = cmd := by rw [hrun]; exact hs2cmd
    have hs3comp : s3.compression = comp := by rw [hrun]; exact hs2comp
    have hs3calc : s3.checksumCalc = B.sum % 65536 := by
      rw [hrun]; show (s2.checksumCalc + B.sum) % 65536 = _
      rw [hs2calc]; simp
    have hs3dl : s3.data_length = B.length := by rw [hrun]; exact hs2dl
    rw [feedWords_cons, feedWords_nil]
    have hc := checksum_step_formula s3 chk hs3ps hs3mode hchk
    refine ⟨?_, hc.1, ?_⟩
    · rw [hc.2, hs3calc, hs3cmd, hs3comp, hs3dl]; omega
    · intro h
      rw [hc.1, hc.2, hs3calc, hs3cmd, hs3comp, hs3dl, h]; omega
  · -- other commands
    subst hBnil
    have h2 := receiveWord_header2_other s1 (leRaw 0) hs1ps hs1mode
      (by rw [hs1cmd]; exact hnd) (by rw [hs1cmd]; exact hnp)
    rw [show leRaw (List.length ([] : List Nat)) = leRaw 0 from rfl] at *
    rw [leRaw_decode 0 (by omega)] at h2
    set s2 := gpb_serial_io_receiveWord (leRaw 0) s1 with hs2def
    have hs2ps : s2.packetState = .GBP_PKT10_PARSE_CHECKSUM := by rw [h2]
    have hs2mode : s2.mode = .GPB_SIO_MODE_16BITS_LITTLE_ENDIAN := by rw [h2]
    have hs2cmd : s2.command = cmd := by rw [h2]; exact hs1cmd
    have hs2comp : s2.compression = comp := by rw [h2]; exact hs1comp
    have hs2calc : s2.checksumCalc = 0 := by rw [h2]; exact hs1calc
    have hs2dl : s2.data_length = 0 := by rw [h2]
    rw [show (([] : List Nat) ++ [leRaw chk]) = [leRaw chk] from rfl,
      feedWords_cons, feedWords_nil]
    have hc := checksum_step_formula s2 chk hs2ps hs2mode hchk
    refine ⟨?_, hc.1, ?_⟩
    · rw [hc.2, hs2calc, hs2cmd, hs2comp, hs2dl]; simp
    · intro h; rw [hc.1, hc.2, hs2calc, hs2cmd, hs2comp, hs2dl, h]; simp

end GbpEmu

namespace GbpEmu

/-- C2, instantiated: on a fresh engine, a well-formed two-byte DATA packet
has computed checksum equal to received checksum. -/
theorem C2_checksum_witness :
    (feedWords [GBP_COMMAND_DATA * 256 + 0, leRaw 2, 1, 2, leRaw 9]
      (initialState 4)).checksum
      = (feedWords [GBP_COMMAND_DATA * 256 + 0, leRaw 2, 1, 2, leRaw 9]
        (initialState 4)).checksumCalc := by
  have h := C2_checksum (initialState 4) GBP_COMMAND_DATA 0 9 [1, 2]
    (by decide) (by decide) (by decide) (by decide) (by decide) (by decide)
    (Or.inl rfl)
  exact h.2.2 (by decide)

end GbpEmu

namespace GbpEmu

/-- Effect of one status-bit update macro on an arbitrary bit below 16. -/
lemma gpb_status_bit_update_testBit (pos j : Nat) (s : Nat) (v : Bool)
    (hj : j < 16) (hpos : pos < 16) :
    (gpb_status_bit_update pos s v).testBit j =
      if j = pos then v else s.testBit j := by
  unfold gpb_status_bit_update
  have h1 : (1 : Nat) <<< pos = 2 ^ pos := by rw [Nat.shiftLeft_eq, one_mul]
  have htb : Nat.testBit 65535 j = true := by
    have h2 : (65535 : Nat) = 2 ^ 16 - 1 := by norm_num
    rw [h2, Nat.testBit_two_pow_sub_one]
    simpa using hj
  cases v with
  | true =>
      rw [if_pos rfl]
      simp only [Nat.testBit_or, h1]
      by_cases h : j = pos
      · subst h; simp [Nat.testBit_two_pow_self]
      · simp [h, Nat.testBit_two_pow_of_ne (fun hc => h hc.symm)]
  | false =>
      rw [if_neg (by simp)]
      simp only [Nat.testBit_and, Nat.testBit_xor, h1, htb]
      by_cases h : j = pos
      · subst h; simp [Nat.testBit_two_pow_self]
      · simp [h, Nat.testBit_two_pow_of_ne (fun hc => h hc.symm)]

end GbpEmu

namespace GbpEmu

/-- Clearing all eight status bits leaves every low-byte bit at zero. -/
lemma gpb_status_bits_clear_all_testBit (s j : Nat) (hj : j < 8) :
    (gpb_status_bits_clear_all s).testBit j = false := by
  have hj16 : j < 16 := by omega
  unfold gpb_status_bits_clear_all gpb_status_bit_update_checksum_error
    gpb_status_bit_update_printer_busy gpb_status_bit_update_print_buffer_full
    gpb_status_bit_update_unprocessed_data gpb_status_bit_update_packet_error
    gpb_status_bit_update_paper_jam gpb_status_bit_update_other_error
    gpb_status_bit_update_low_battery
  rw [gpb_status_bit_update_testBit 0 j _ false hj16 (by norm_num),
    gpb_status_bit_update_testBit 1 j _ false hj16 (by norm_num),
    gpb_status_bit_update_testBit 2 j _ false hj16 (by norm_num),
    gpb_status_bit_update_testBit 3 j _ false hj16 (by norm_num),
    gpb_status_bit_update_testBit 4 j _ false hj16 (by norm_num),
    gpb_status_bit_update_testBit 5 j _ false hj16 (by norm_num),
    gpb_status_bit_update_testBit 6 j _ false hj16 (by norm_num),
    gpb_status_bit_update_testBit 7 j _ false hj16 (by norm_num)]
  interval_cases j <;> simp

/-- C6 counterexample: after a PRINT packet and the first header word of a
DATA packet, the 5000 ms timeout fires and resets, but the resulting state
is not the post-init state: the parse state is not back at the first
header state and the busy countdown survives. -/
theorem C6_counterexample :
    (gbp_serial_io_timeout_handler
      (feedWords [0x0200, leRaw 4, 1, 3, 0xE4, 0x40, leRaw 302, 0, 0x0400]
        (initialState 4)) 5000).2 = true ∧
    (gbp_serial_io_timeout_handler
      (feedWords [0x0200, leRaw 4, 1, 3, 0xE4, 0x40, leRaw 302, 0, 0x0400]
        (initialState 4)) 5000).1 ≠ initialState 4 ∧
    (gbp_serial_io_timeout_handler
      (feedWords [0x0200, leRaw 4, 1, 3, 0xE4, 0x40, leRaw 302, 0, 0x0400]
        (initialState 4)) 5000).1.packetState ≠
      .GBP_PKT10_PARSE_HEADER_COMMAND_AND_COMPRESSION ∧
    (gbp_serial_io_timeout_handler
      (feedWords [0x0200, leRaw 4, 1, 3, 0xE4, 0x40, leRaw 302, 0, 0x0400]
        (initialState 4)) 5000).1.busyPacketCountdown = 3 := by
  decide

/-- C6 amended: a BREAK observed by the tick, or an expired timeout, invoke
`gpb_serial_io_reset`, which clears all eight status bits, reverts the
synchroniser to preamble scanning (shifter disarmed), and empties the ring
buffer; it leaves the packet-parse state and the three sequencing counters
unchanged, so the post-reset state is not in general the post-init
state (the first header state is re-entered only at the next preamble
match). -/
theorem C6_reset_amended (st : EngineState) :
    (gpb_serial_io_reset st).syncronised = false ∧
    (gpb_serial_io_reset st).bitMaskMap = 0 ∧
    (gpb_serial_io_reset st).dataBuffer.buff = [] ∧
    (gpb_serial_io_reset st).statusBuffer.testBit 0 = false ∧
    (gpb_serial_io_reset st).statusBuffer.testBit 1 = false ∧
    (gpb_serial_io_reset st).statusBuffer.testBit 2 = false ∧
    (gpb_serial_io_reset st).statusBuffer.testBit 3 = false ∧
    (gpb_serial_io_reset st).statusBuffer.testBit 4 = false ∧
    (gpb_serial_io_reset st).statusBuffer.testBit 5 = false ∧
    (gpb_serial_io_reset st).statusBuffer.testBit 6 = false ∧
    (gpb_serial_io_reset st).statusBuffer.testBit 7 = false ∧
    (gpb_serial_io_reset st).packetState = st.packetState ∧
    (gpb_serial_io_reset st).busyPacketCountdown = st.busyPacketCountdown ∧
    (gpb_serial_io_reset st).untransPacketCountdown = st.untransPacketCountdown ∧
    (gpb_serial_io_reset st).dataPacketCountdown = st.dataPacketCountdown := by
  refine ⟨rfl, rfl, rfl, ?_, ?_, ?_, ?_, ?_, ?_, ?_, ?_, rfl, rfl, rfl, rfl⟩
  all_goals
    exact gpb_status_bits_clear_all_testBit st.statusBuffer _ (by norm_num)

/-- C8: the tick returns true exactly when it reset the engine: a pending
BREAK, or a non-zero timeout consumed by the elapsed time; the decrement
saturates at zero, and a zero timeout with no BREAK leaves the state
untouched and returns false. -/
theorem C8_tick (st : EngineState) (e : Nat) :
    ((gbp_serial_io_timeout_handler st e).2 = true ↔
      (st.breakPacketReceived = true ∨ (0 < st.timeout_ms ∧ st.timeout_ms ≤ e))) ∧
    (gbp_serial_io_timeout_handler st e).1 =
      (if st.breakPacketReceived then gpb_serial_io_reset st
       else if st.timeout_ms = 0 then st
       else if st.timeout_ms ≤ e then gpb_serial_io_reset { st with timeout_ms := 0 }
       else { st with timeout_ms := st.timeout_ms - e }) := by
  constructor
  · by_cases hb : st.breakPacketReceived
    · simp [gbp_serial_io_timeout_handler, hb]
    · by_cases h0 : st.timeout_ms = 0
      · simp [gbp_serial_io_timeout_handler, hb, h0]
      · have hpos : 0 < st.timeout_ms := by omega
        by_cases hle : st.timeout_ms ≤ e
        · have h1 : ¬ e < st.timeout_ms := by omega
          simp [gbp_serial_io_timeout_handler, hb, hpos, h1, hle]
        · have h1 : e < st.timeout_ms := by omega
          have h2 : ¬ st.timeout_ms - e = 0 := by omega
          simp [gbp_serial_io_timeout_handler, hb, hpos, h1, h2, hle]
  · by_cases hb : st.breakPacketReceived
    · simp only [gbp_serial_io_timeout_handler, if_pos hb]
    · simp only [gbp_serial_io_timeout_handler, if_neg hb]
      by_cases h0 : st.timeout_ms = 0
      · have hnp : ¬ 0 < st.timeout_ms := by omega
        simp only [if_neg hnp, if_pos h0]
      · have hpos : 0 < st.timeout_ms := by omega
        simp only [if_pos hpos, if_neg h0]
        by_cases hle : st.timeout_ms ≤ e
        · have h1 : (if e < st.timeout_ms then st.timeout_ms - e else 0) = 0 :=
            if_neg (by omega)
          simp [h1, hle]
        · have h1 : (if e < st.timeout_ms then st.timeout_ms - e else 0) =
              st.timeout_ms - e := if_pos (by omega)
          have h2 : ¬ st.timeout_ms - e = 0 := by omega
          simp [h1, h2, hle]

end GbpEmu

namespace GbpEmu

/-- C5 counterexample: a PRINT packet with length field 5 and five wire
payload bytes.  After the fourth payload byte the engine is already in the
checksum state, so the fifth and sixth wire bytes are decoded as the
checksum word (0x6655) instead of being consumed and discarded as payload
before the checksum is read. -/
theorem C5_counterexample :
    (feedWords [0x0200, leRaw 5, 0x11, 0x22, 0x33, 0x44]
      (initialState 4)).packetState = .GBP_PKT10_PARSE_CHECKSUM ∧
    (feedWords [0x0200, leRaw 5, 0x11, 0x22, 0x33, 0x44]
      (initialState 4)).data_length = 4 ∧
    (feedWords [0x0200, leRaw 5, 0x11, 0x22, 0x33, 0x44, 0x55 * 256 + 0x66]
      (initialState 4)).packetState = .GBP_PKT10_PARSE_DUMMY ∧
    (feedWords [0x0200, leRaw 5, 0x11, 0x22, 0x33, 0x44, 0x55 * 256 + 0x66]
      (initialState 4)).checksum = 0x6655 := by
  decide

/-- C5 amended: for every PRINT packet whose length field exceeds 4, the
engine clamps `data_length` to 4 and records exactly the first four wire
payload bytes into the print instruction buffer; after the fourth byte it
proceeds directly to the checksum state, so wire bytes beyond the fourth
are not consumed as payload (the next transfer is decoded as the checksum
word). -/
theorem C5_print_clamp_amended (st : EngineState)
    (L comp b1 b2 b3 b4 p0 p1 p2 p3 : Nat)
    (hstate : st.packetState = .GBP_PKT10_PARSE_HEADER_COMMAND_AND_COMPRESSION)
    (hL : 4 < L) (hL2 : L < 65536) (hcomp : comp < 256)
    (hb1 : b1 < 256) (hb2 : b2 < 256) (hb3 : b3 < 256) (hb4 : b4 < 256)
    (hbuf : st.printInstructionBuffer = [p0, p1, p2, p3]) :
    (feedWords [GBP_COMMAND_PRINT * 256 + comp, leRaw L, b1, b2, b3, b4]
      st).packetState = .GBP_PKT10_PARSE_CHECKSUM ∧
    (feedWords [GBP_COMMAND_PRINT * 256 + comp, leRaw L, b1, b2, b3, b4]
      st).data_length = 4 ∧
    (feedWords [GBP_COMMAND_PRINT * 256 + comp, leRaw L, b1, b2, b3, b4]
      st).printInstructionBuffer = [b1, b2, b3, b4] := by
  rw [feedWords_cons]
  have h1 := receiveWord_header1 st (GBP_COMMAND_PRINT * 256 + comp) hstate
  set s1 := gpb_serial_io_receiveWord (GBP_COMMAND_PRINT * 256 + comp) st
    with hs1def
  have hs1ps : s1.packetState = .GBP_PKT10_PARSE_HEADER_DATA_LENGTH := by rw [h1]
  have hs1mode : s1.mode = .GPB_SIO_MODE_16BITS_LITTLE_ENDIAN := by rw [h1]
  have hs1cmd : s1.command = GBP_COMMAND_PRINT := by
    rw [h1]
    show (GBP_COMMAND_PRINT * 256 + comp) / 256 % 256 = GBP_COMMAND_PRINT
    unfold GBP_COMMAND_PRINT
    omega
  have hs1buf : s1.printInstructionBuffer = st.printInstructionBuffer := by rw [h1]
  rw [feedWords_cons]
  have h2 := receiveWord_header2_print s1 (leRaw L) hs1ps hs1mode hs1cmd
  rw [leRaw_decode _ hL2, if_pos hL] at h2
  set s2 := gpb_serial_io_receiveWord (leRaw L) s1 with hs2def
  have hs2ps : s2.packetState = .GBP_PKT10_PARSE_DATA_PAYLOAD := by rw [h2]
  have hs2cmd : s2.command = GBP_COMMAND_PRINT := by rw [h2]; exact hs1cmd
  have hs2di : s2.data_i = 0 := by rw [h2]
  have hs2dl : s2.data_length = 4 := by rw [h2]
  have hs2buf : s2.printInstructionBuffer = [p0, p1, p2, p3] := by
    rw [h2]; show s1.printInstructionBuffer = _; rw [hs1buf, hbuf]
  have hrun := feed_payload_print [b1, b2, b3, b4] s2 hs2ps hs2cmd (by simp)
    (by rw [hs2di, hs2dl]; rfl) (by rw [hs2dl]; omega)
    (by intro x hx; simp at hx; rcases hx with h | h | h | h <;> omega)
  refine ⟨?_, ?_, ?_⟩
  · rw [hrun]
  · rw [hrun]; show s2.data_length = 4; exact hs2dl
  · rw [hrun]
    show setSeq s2.printInstructionBuffer s2.data_i [b1, b2, b3, b4] = _
    rw [hs2buf, hs2di]
    simp [setSeq]

/-- C5 amended, instantiated at a concrete oversized PRINT packet. -/
theorem C5_print_clamp_amended_witness :
    (feedWords [GBP_COMMAND_PRINT * 256 + 0, leRaw 7, 0x11, 0x22, 0x33, 0x44]
      (initialState 4)).packetState = .GBP_PKT10_PARSE_CHECKSUM ∧
    (feedWords [GBP_COMMAND_PRINT * 256 + 0, leRaw 7, 0x11, 0x22, 0x33, 0x44]
      (initialState 4)).data_length = 4 ∧
    (feedWords [GBP_COMMAND_PRINT * 256 + 0, leRaw 7, 0x11, 0x22, 0x33, 0x44]
      (initialState 4)).printInstructionBuffer = [0x11, 0x22, 0x33, 0x44] :=
  C5_print_clamp_amended (initialState 4) 7 0 0x11 0x22 0x33 0x44 0 0 0 0
    (by decide) (by decide) (by decide) (by decide) (by decide) (by decide)
    (by decide) (by decide) (by decide)

/-- C9: a PRINT packet whose length field is 0 still enters the payload
state and consumes one wire byte as payload, recording it into
`print_instruction[0]` and adding it to the computed checksum, before
moving to the checksum state. -/
theorem C9_print_len0 (st : EngineState) (comp b p0 p1 p2 p3 : Nat)
    (hstate : st.packetState = .GBP_PKT10_PARSE_HEADER_COMMAND_AND_COMPRESSION)
    (hcomp : comp < 256) (hb : b < 256)
    (hbuf : st.printInstructionBuffer = [p0, p1, p2, p3]) :
    (feedWords [GBP_COMMAND_PRINT * 256 + comp, leRaw 0] st).packetState
      = .GBP_PKT10_PARSE_DATA_PAYLOAD ∧
    (feedWords [GBP_COMMAND_PRINT * 256 + comp, leRaw 0, b] st).printInstructionBuffer
      = [b, p1, p2, p3] ∧
    (feedWords [GBP_COMMAND_PRINT * 256 + comp, leRaw 0, b] st).checksumCalc = b ∧
    (feedWords [GBP_COMMAND_PRINT * 256 + comp, leRaw 0, b] st).data_i = 1 ∧
    (feedWords [GBP_COMMAND_PRINT * 256 + comp, leRaw 0, b] st).packetState
      = .GBP_PKT10_PARSE_CHECKSUM := by
  have h1 := receiveWord_header1 st (GBP_COMMAND_PRINT * 256 + comp) hstate
  set s1 := gpb_serial_io_receiveWord (GBP_COMMAND_PRINT * 256 + comp) st
    with hs1def
  have hs1ps : s1.packetState = .GBP_PKT10_PARSE_HEADER_DATA_LENGTH := by rw [h1]
  have hs1mode : s1.mode = .GPB_SIO_MODE_16BITS_LITTLE_ENDIAN := by rw [h1]
  have hs1cmd : s1.command = GBP_COMMAND_PRINT := by
    rw [h1]
    show (GBP_COMMAND_PRINT * 256 + comp) / 256 % 256 = GBP_COMMAND_PRINT
    unfold GBP_COMMAND_PRINT
    omega
  have hs1calc : s1.checksumCalc = 0 := by rw [h1]
  have hs1buf : s1.printInstructionBuffer = st.printInstructionBuffer := by rw [h1]
  have h2 := receiveWord_header2_print s1 (leRaw 0) hs1ps hs1mode hs1cmd
  rw [leRaw_decode 0 (by omega), if_neg (by omega)] at h2
  set s2 := gpb_serial_io_receiveWord (leRaw 0) s1 with hs2def
  have hs2ps : s2.packetState = .GBP_PKT10_PARSE_DATA_PAYLOAD := by rw [h2]
  have hs2cmd : s2.command = GBP_COMMAND_PRINT := by rw [h2]; exact hs1cmd
  have hs2di : s2.data_i = 0 := by rw [h2]
  have hs2dl : s2.data_length = 0 := by rw [h2]
  have hs2calc : s2.checksumCalc = 0 := by rw [h2]; exact hs1calc
  have hs2buf : s2.printInstructionBuffer = [p0, p1, p2, p3] := by
    rw [h2]; show s1.printInstructionBuffer = _; rw [hs1buf, hbuf]
  have h3 := receiveWord_payload_print s2 b hs2ps hs2cmd hb (by rw [hs2di]; omega)
  rw [if_pos (by rw [hs2di, hs2dl]; omega)] at h3
  have hfa : feedWords [GBP_COMMAND_PRINT * 256 + comp, leRaw 0] st = s2 := by
    rw [feedWords_cons, feedWords_cons, feedWords_nil, ← hs1def, ← hs2def]
  have hfb : feedWords [GBP_COMMAND_PRINT * 256 + comp, leRaw 0, b] st =
      gpb_serial_io_receiveWord b s2 := by
    rw [feedWords_cons, feedWords_cons, feedWords_cons, feedWords_nil,
      ← hs1def, ← hs2def]
  refine ⟨by rw [hfa]; exact hs2ps, ?_, ?_, ?_, ?_⟩
  · rw [hfb, h3]
    show s2.printInstructionBuffer.set s2.data_i b = _
    rw [hs2buf, hs2di]
    simp
  · rw [hfb, h3]
    show (s2.checksumCalc + b) % 65536 = b
    rw [hs2calc]
    omega
  · rw [hfb, h3]
    show s2.data_i + 1 = 1
    rw [hs2di]
  · rw [hfb, h3]

/-- C9, instantiated: a zero-length PRINT packet still records one payload
byte on a fresh engine. -/
theorem C9_print_len0_witness :
    (feedWords [GBP_COMMAND_PRINT * 256 + 0, leRaw 0] (initialState 4)).packetState
      = .GBP_PKT10_PARSE_DATA_PAYLOAD ∧
    (feedWords [GBP_COMMAND_PRINT * 256 + 0, leRaw 0, 0xAB] (initialState 4)).printInstructionBuffer
      = [0xAB, 0, 0, 0] ∧
    (feedWords [GBP_COMMAND_PRINT * 256 + 0, leRaw 0, 0xAB] (initialState 4)).checksumCalc = 0xAB ∧
    (feedWords [GBP_COMMAND_PRINT * 256 + 0, leRaw 0, 0xAB] (initialState 4)).data_i = 1 ∧
    (feedWords [GBP_COMMAND_PRINT * 256 + 0, leRaw 0, 0xAB] (initialState 4)).packetState
      = .GBP_PKT10_PARSE_CHECKSUM :=
  C9_print_len0 (initialState 4) 0 0xAB 0 0 0 0 (by decide) (by decide)
    (by decide) (by decide)

end GbpEmu

namespace GbpEmu

/-- Arming a new transfer leaves the busy countdown alone. -/
lemma gpb_sio_next_busy (m : gpb_sio_mode_t) (t : Nat) (st : EngineState) :
    (gpb_sio_next m t st).busyPacketCountdown = st.busyPacketCountdown := by
  cases m <;> rfl

/-- Arming a new transfer leaves the untransmitted countdown alone. -/
lemma gpb_sio_next_untrans (m : gpb_sio_mode_t) (t : Nat) (st : EngineState) :
    (gpb_sio_next m t st).untransPacketCountdown = st.untransPacketCountdown := by
  cases m <;> rfl

/-- Arming a new transfer leaves the data-packet countdown alone. -/
lemma gpb_sio_next_dataCnt (m : gpb_sio_mode_t) (t : Nat) (st : EngineState) :
    (gpb_sio_next m t st).dataPacketCountdown = st.dataPacketCountdown := by
  cases m <;> rfl

/-- Explicit form of the INQUIRY countdown block: decrement the
untransmitted countdown first, else the busy countdown, with their
on-reaching-zero status-bit updates. -/
lemma checksum_inquiry_countdown_eq (st : EngineState) :
    checksum_inquiry_countdown st =
      { st with
        untransPacketCountdown :=
          if 0 < st.untransPacketCountdown then st.untransPacketCountdown - 1
          else st.untransPacketCountdown,
        busyPacketCountdown :=
          if 0 < st.untransPacketCountdown then st.busyPacketCountdown
          else if 0 < st.busyPacketCountdown then st.busyPacketCountdown - 1
          else st.busyPacketCountdown,
        statusBuffer :=
          if 0 < st.untransPacketCountdown then
            (if st.untransPacketCountdown = 1 then
              (if 0 < st.busyPacketCountdown then
                gpb_status_bit_update_print_buffer_full
                  (gpb_status_bit_update_printer_busy
                    (gpb_status_bit_update_unprocessed_data st.statusBuffer false)
                    true) true
              else gpb_status_bit_update_unprocessed_data st.statusBuffer false)
            else st.statusBuffer)
          else if 0 < st.busyPacketCountdown then
            (if st.busyPacketCountdown = 1 then
              gpb_status_bit_update_printer_busy st.statusBuffer false
            else st.statusBuffer)
          else st.statusBuffer } := by
  simp only [checksum_inquiry_countdown]
  split_ifs <;> first
    | (ext <;> simp <;> omega)
    | (exfalso; omega)

/-- The BREAK branch of the pre-dummy command switch clears every status
bit and then falls through to the INQUIRY countdown block. -/
lemma checksum_command_update_break (s : EngineState)
    (hcmd : s.command = GBP_COMMAND_BREAK) :
    checksum_command_update s =
      checksum_inquiry_countdown
        { s with statusBuffer := gpb_status_bits_clear_all s.statusBuffer } := by
  unfold checksum_command_update
  rw [if_neg (by rw [hcmd]; decide), if_neg (by rw [hcmd]; decide),
    if_neg (by rw [hcmd]; decide), if_pos hcmd]

end GbpEmu

namespace GbpEmu

/-- The dummy transfer armed by the checksum state carries the status
word. -/
lemma parse_checksum_tx_eq_status (s : EngineState) :
    (parse_checksum s).tx_buff = (parse_checksum s).statusBuffer := by
  simp only [parse_checksum, gpb_sio_next_tx_BE, gpb_sio_next_statusBuffer]

/-- Effect of the checksum-state transition of a BREAK packet on the
status word and the three countdowns: all bits cleared, then the INQUIRY
countdown step applied. -/
lemma parse_checksum_break (s : EngineState)
    (hcmd : s.command = GBP_COMMAND_BREAK) :
    (parse_checksum s).statusBuffer =
      (if 0 < s.untransPacketCountdown then
        (if s.untransPacketCountdown = 1 then
          (if 0 < s.busyPacketCountdown then
            gpb_status_bit_update_print_buffer_full
              (gpb_status_bit_update_printer_busy
                (gpb_status_bit_update_unprocessed_data
                  (gpb_status_bits_clear_all s.statusBuffer) false) true) true
          else
            gpb_status_bit_update_unprocessed_data
              (gpb_status_bits_clear_all s.statusBuffer) false)
        else gpb_status_bits_clear_all s.statusBuffer)
      else if 0 < s.busyPacketCountdown then
        (if s.busyPacketCountdown = 1 then
          gpb_status_bit_update_printer_busy
            (gpb_status_bits_clear_all s.statusBuffer) false
        else gpb_status_bits_clear_all s.statusBuffer)
      else gpb_status_bits_clear_all s.statusBuffer) ∧
    (parse_checksum s).untransPacketCountdown =
      (if 0 < s.untransPacketCountdown then s.untransPacketCountdown - 1
       else s.untransPacketCountdown) ∧
    (parse_checksum s).busyPacketCountdown =
      (if 0 < s.untransPacketCountdown then s.busyPacketCountdown
       else if 0 < s.busyPacketCountdown then s.busyPacketCountdown - 1
       else s.busyPacketCountdown) ∧
    (parse_checksum s).dataPacketCountdown = s.dataPacketCountdown := by
  simp only [parse_checksum, gpb_sio_next_statusBuffer, gpb_sio_next_untrans,
    gpb_sio_next_busy, gpb_sio_next_dataCnt]
  rw [checksum_command_update_break _ (by simp [hcmd]),
    checksum_inquiry_countdown_eq]
  simp

end GbpEmu

namespace GbpEmu

/-- A number whose lowest bit is clear is even. -/
lemma mod_two_of_testBit_zero (x : Nat) (h : x.testBit 0 = false) : x % 2 = 0 := by
  simp [Nat.testBit_zero] at h
  omega

/-- Clearing all eight status bits yields an even status word. -/
lemma gpb_status_bits_clear_all_mod_two (s : Nat) :
    gpb_status_bits_clear_all s % 2 = 0 := by
  apply mod_two_of_testBit_zero
  rw [gpb_status_bits_clear_all_testBit s 0 (by norm_num)]

/-- Updating a bit above position zero keeps an even status word even. -/
lemma gpb_status_bit_update_mod_two (pos : Nat) (s : Nat) (v : Bool)
    (h0 : s % 2 = 0) (hpos : 0 < pos) (hpos16 : pos < 16) :
    gpb_status_bit_update pos s v % 2 = 0 := by
  apply mod_two_of_testBit_zero
  rw [gpb_status_bit_update_testBit pos 0 s v (by norm_num) hpos16,
    if_neg (by omega)]
  simp [Nat.testBit_zero]
  omega


/-- The busy branch of the BREAK fall-through keeps the low bit clear. -/
lemma break_chainB_mod_two (s : Nat) :
    gpb_status_bit_update 1 (gpb_status_bits_clear_all s) false % 2 = 0 :=
  gpb_status_bit_update_mod_two _ _ _ (gpb_status_bits_clear_all_mod_two s)
    (by norm_num) (by norm_num)

/-- The unprocessed-data branch of the BREAK fall-through keeps the low bit
clear. -/
lemma break_chainD_mod_two (s : Nat) :
    gpb_status_bit_update 3 (gpb_status_bits_clear_all s) false % 2 = 0 :=
  gpb_status_bit_update_mod_two _ _ _ (gpb_status_bits_clear_all_mod_two s)
    (by norm_num) (by norm_num)

/-- The busy-and-full branch of the BREAK fall-through keeps the low bit
clear. -/
lemma break_chainE_mod_two (s : Nat) :
    gpb_status_bit_update 2
      (gpb_status_bit_update 1
        (gpb_status_bit_update 3 (gpb_status_bits_clear_all s) false) true)
      true % 2 = 0 :=
  gpb_status_bit_update_mod_two _ _ _
    (gpb_status_bit_update_mod_two _ _ _
      (gpb_status_bit_update_mod_two _ _ _ (gpb_status_bits_clear_all_mod_two s)
        (by norm_num) (by norm_num))
      (by norm_num) (by norm_num))
    (by norm_num) (by norm_num)

set_option maxHeartbeats 2000000 in
/-- C4: when a BREAK packet reaches its checksum phase, the engine clears
all eight status bits and then additionally executes the INQUIRY countdown
step (decrementing the untransmitted countdown, else the busy countdown,
with their on-zero status-bit updates) before arming the dummy transfer
with the resulting status word. -/
theorem C4_break_fallthrough (st : EngineState)
    (hstate : st.packetState = .GBP_PKT10_PARSE_HEADER_COMMAND_AND_COMPRESSION) :
    (feedWords [GBP_COMMAND_BREAK * 256, leRaw 0, leRaw 8] st).packetState
      = .GBP_PKT10_PARSE_DUMMY ∧
    (feedWords [GBP_COMMAND_BREAK * 256, leRaw 0, leRaw 8] st).tx_buff
      = (feedWords [GBP_COMMAND_BREAK * 256, leRaw 0, leRaw 8] st).statusBuffer ∧
    (feedWords [GBP_COMMAND_BREAK * 256, leRaw 0, leRaw 8] st).dataPacketCountdown
      = st.dataPacketCountdown ∧
    (feedWords [GBP_COMMAND_BREAK * 256, leRaw 0, leRaw 8] st).untransPacketCountdown
      = (if 0 < st.untransPacketCountdown then st.untransPacketCountdown - 1
         else st.untransPacketCountdown) ∧
    (feedWords [GBP_COMMAND_BREAK * 256, leRaw 0, leRaw 8] st).busyPacketCountdown
      = (if 0 < st.untransPacketCountdown then st.busyPacketCountdown
         else if 0 < st.busyPacketCountdown then st.busyPacketCountdown - 1
         else st.busyPacketCountdown) ∧
    (feedWords [GBP_COMMAND_BREAK * 256, leRaw 0, leRaw 8] st).statusBuffer.testBit 0
      = false ∧
    ((feedWords [GBP_COMMAND_BREAK * 256, leRaw 0, leRaw 8] st).statusBuffer.testBit 1
      = true ↔ (st.untransPacketCountdown = 1 ∧ 0 < st.busyPacketCountdown)) ∧
    ((feedWords [GBP_COMMAND_BREAK * 256, leRaw 0, leRaw 8] st).statusBuffer.testBit 2
      = true ↔ (st.untransPacketCountdown = 1 ∧ 0 < st.busyPacketCountdown)) ∧
    (feedWords [GBP_COMMAND_BREAK * 256, leRaw 0, leRaw 8] st).statusBuffer.testBit 3
      = false ∧
    (feedWords [GBP_COMMAND_BREAK * 256, leRaw 0, leRaw 8] st).statusBuffer.testBit 4
      = false ∧
    (feedWords [GBP_COMMAND_BREAK * 256, leRaw 0, leRaw 8] st).statusBuffer.testBit 5
      = false ∧
    (feedWords [GBP_COMMAND_BREAK * 256, leRaw 0, leRaw 8] st).statusBuffer.testBit 6
      = false ∧
    (feedWords [GBP_COMMAND_BREAK * 256, leRaw 0, leRaw 8] st).statusBuffer.testBit 7
      = false := by
  have h1 := receiveWord_header1 st (GBP_COMMAND_BREAK * 256) hstate
  set s1 := gpb_serial_io_receiveWord (GBP_COMMAND_BREAK * 256) st with hs1def
  have hs1ps : s1.packetState = .GBP_PKT10_PARSE_HEADER_DATA_LENGTH := by rw [h1]
  have hs1mode : s1.mode = .GPB_SIO_MODE_16BITS_LITTLE_ENDIAN := by rw [h1]
  have hs1cmd : s1.command = GBP_COMMAND_BREAK := by
    rw [h1]
    show GBP_COMMAND_BREAK * 256 / 256 % 256 = GBP_COMMAND_BREAK
    decide
  have hs1stat : s1.statusBuffer = st.statusBuffer := by rw [h1]
  have hs1bu : s1.busyPacketCountdown = st.busyPacketCountdown := by rw [h1]
  have hs1un : s1.untransPacketCountdown = st.untransPacketCountdown := by rw [h1]
  have hs1da : s1.dataPacketCountdown = st.dataPacketCountdown := by rw [h1]
  have h2 := receiveWord_header2_other s1 (leRaw 0) hs1ps hs1mode
    (by rw [hs1cmd]; decide) (by rw [hs1cmd]; decide)
  set s2 := gpb_serial_io_receiveWord (leRaw 0) s1 with hs2def
  have hs2ps : s2.packetState = .GBP_PKT10_PARSE_CHECKSUM := by rw [h2]
  have hs2cmd : s2.command = GBP_COMMAND_BREAK := by rw [h2]; exact hs1cmd
  have hs2stat : s2.statusBuffer = st.statusBuffer := by rw [h2]; exact hs1stat
  have hs2bu : s2.busyPacketCountdown = st.busyPacketCountdown := by
    rw [h2]; exact hs1bu
  have hs2un : s2.untransPacketCountdown = st.untransPacketCountdown := by
    rw [h2]; exact hs1un
  have hs2da : s2.dataPacketCountdown = st.dataPacketCountdown := by
    rw [h2]; exact hs1da
  have hfeed : feedWords [GBP_COMMAND_BREAK * 256, leRaw 0, leRaw 8] st =
      gpb_serial_io_receiveWord (leRaw 8) s2 := by
    rw [feedWords_cons, feedWords_cons, feedWords_cons, feedWords_nil,
      ← hs1def, ← hs2def]
  rw [hfeed, receiveWord_at_checksum s2 (leRaw 8) hs2ps]
  set sc : EngineState :=
    { s2 with rx_buff := leRaw 8, timeout_ms := GBP_PKT10_TIMEOUT_MS } with hscdef
  have hsccmd : sc.command = GBP_COMMAND_BREAK := hs2cmd
  have hscstat : sc.statusBuffer = st.statusBuffer := hs2stat
  have hscbu : sc.busyPacketCountdown = st.busyPacketCountdown := hs2bu
  have hscun : sc.untransPacketCountdown = st.untransPacketCountdown := hs2un
  have hscda : sc.dataPacketCountdown = st.dataPacketCountdown := hs2da
  have hbrk := parse_checksum_break sc hsccmd
  have hstat := hbrk.1
  rw [hscstat, hscun, hscbu] at hstat
  refine ⟨parse_checksum_packetState sc, parse_checksum_tx_eq_status sc,
    by rw [hbrk.2.2.2]; exact hscda,
    by rw [hbrk.2.1, hscun],
    by rw [hbrk.2.2.1, hscun, hscbu],
    ?_, ?_, ?_, ?_, ?_, ?_, ?_, ?_⟩
  all_goals rw [hstat]
  all_goals split_ifs <;>
    simp_all [gpb_status_bit_update_print_buffer_full,
      gpb_status_bit_update_printer_busy, gpb_status_bit_update_unprocessed_data,
      gpb_status_bit_update_testBit, gpb_status_bits_clear_all_testBit,
      gpb_status_bits_clear_all_mod_two, break_chainB_mod_two,
      break_chainD_mod_two, break_chainE_mod_two] <;>
    omega

end GbpEmu

namespace GbpEmu

/-- A freshly initialised engine with one untransmitted-countdown step left
and a positive busy countdown. -/
def c4WitnessState : EngineState :=
  { initialState 2 with untransPacketCountdown := 1, busyPacketCountdown := 2 }

/-- C4, instantiated: a BREAK arriving with one untransmitted-countdown
step left and a positive busy countdown sets the busy bit through the
fall-through INQUIRY step. -/
theorem C4_break_fallthrough_witness :
    (feedWords [GBP_COMMAND_BREAK * 256, leRaw 0, leRaw 8]
      c4WitnessState).statusBuffer.testBit 1 = true := by
  have h := C4_break_fallthrough c4WitnessState (by decide)
  exact h.2.2.2.2.2.2.1.mpr ⟨by decide, by decide⟩

end GbpEmu

namespace GbpEmu

/-- The PRINT branch of the pre-dummy command switch only reloads the busy
countdown. -/
lemma checksum_command_update_print (s : EngineState)
    (hcmd : s.command = GBP_COMMAND_PRINT) :
    checksum_command_update s =
      { s with busyPacketCountdown := GPB_BUSY_PACKET_COUNT } := by
  unfold checksum_command_update
  rw [if_neg (by rw [hcmd]; decide), if_pos hcmd]

/-- The INQUIRY branch of the pre-dummy command switch is exactly the
countdown block. -/
lemma checksum_command_update_inquiry (s : EngineState)
    (hcmd : s.command = GBP_COMMAND_INQUIRY) :
    checksum_command_update s = checksum_inquiry_countdown s := by
  unfold checksum_command_update
  rw [if_neg (by rw [hcmd]; decide), if_neg (by rw [hcmd]; decide),
    if_neg (by rw [hcmd]; decide), if_neg (by rw [hcmd]; decide), if_pos hcmd]

/-- The checksum-state transition of a PRINT packet reloads the busy
countdown and touches nothing else of the sequencing state. -/
lemma parse_checksum_print (s : EngineState)
    (hcmd : s.command = GBP_COMMAND_PRINT) :
    (parse_checksum s).busyPacketCountdown = GPB_BUSY_PACKET_COUNT ∧
    (parse_checksum s).untransPacketCountdown = s.untransPacketCountdown ∧
    (parse_checksum s).dataPacketCountdown = s.dataPacketCountdown ∧
    (parse_checksum s).statusBuffer = s.statusBuffer ∧
    (parse_checksum s).command = s.command := by
  simp only [parse_checksum, gpb_sio_next_busy, gpb_sio_next_untrans,
    gpb_sio_next_dataCnt, gpb_sio_next_statusBuffer, gpb_sio_next_command]
  rw [checksum_command_update_print _ (by simp [hcmd])]
  simp

/-- Effect of the checksum-state transition of an INQUIRY packet on the
status word and countdowns. -/
lemma parse_checksum_inquiry (s : EngineState)
    (hcmd : s.command = GBP_COMMAND_INQUIRY) :
    (parse_checksum s).statusBuffer =
      (if 0 < s.untransPacketCountdown then
        (if s.untransPacketCountdown = 1 then
          (if 0 < s.busyPacketCountdown then
            gpb_status_bit_update_print_buffer_full
              (gpb_status_bit_update_printer_busy
                (gpb_status_bit_update_unprocessed_data s.statusBuffer false)
                true) true
          else gpb_status_bit_update_unprocessed_data s.statusBuffer false)
        else s.statusBuffer)
      else if 0 < s.busyPacketCountdown then
        (if s.busyPacketCountdown = 1 then
          gpb_status_bit_update_printer_busy s.statusBuffer false
        else s.statusBuffer)
      else s.statusBuffer) ∧
    (parse_checksum s).untransPacketCountdown =
      (if 0 < s.untransPacketCountdown then s.untransPacketCountdown - 1
       else s.untransPacketCountdown) ∧
    (parse_checksum s).busyPacketCountdown =
      (if 0 < s.untransPacketCountdown then s.busyPacketCountdown
       else if 0 < s.busyPacketCountdown then s.busyPacketCountdown - 1
       else s.busyPacketCountdown) ∧
    (parse_checksum s).command = s.command := by
  simp only [parse_checksum, gpb_sio_next_statusBuffer, gpb_sio_next_untrans,
    gpb_sio_next_busy, gpb_sio_next_command]
  rw [checksum_command_update_inquiry _ (by simp [hcmd]),
    checksum_inquiry_countdown_eq]
  simp

/-- The dummy-state transition always returns the parser to the first
header state. -/
lemma parse_dummy_packetState (s : EngineState) :
    (parse_dummy s).packetState =
      .GBP_PKT10_PARSE_HEADER_COMMAND_AND_COMPRESSION := by
  simp only [parse_dummy, gpb_sio_next_packetState]

/-- The dummy-state transition of a PRINT packet only raises the received
flag. -/
lemma parse_dummy_print (s : EngineState)
    (hcmd : s.command = GBP_COMMAND_PRINT) :
    (parse_dummy s).untransPacketCountdown = s.untransPacketCountdown ∧
    (parse_dummy s).busyPacketCountdown = s.busyPacketCountdown ∧
    (parse_dummy s).dataPacketCountdown = s.dataPacketCountdown ∧
    (parse_dummy s).statusBuffer = s.statusBuffer := by
  have h1 : dummy_status_update s = s := by
    unfold dummy_status_update
    rw [if_neg (by rw [hcmd]; decide), if_neg (by rw [hcmd]; decide)]
  have h2 : dummy_notify_update s = { s with printInstructionReceived := true } := by
    unfold dummy_notify_update
    rw [if_neg (by rw [hcmd]; decide), if_pos hcmd]
  simp [parse_dummy, h1, h2, gpb_sio_next_untrans, gpb_sio_next_busy,
    gpb_sio_next_dataCnt, gpb_sio_next_statusBuffer]

/-- The dummy-state transition of an INQUIRY packet preserves the
countdowns and the busy bit. -/
lemma parse_dummy_inquiry (s : EngineState)
    (hcmd : s.command = GBP_COMMAND_INQUIRY) :
    (parse_dummy s).untransPacketCountdown = s.untransPacketCountdown ∧
    (parse_dummy s).busyPacketCountdown = s.busyPacketCountdown ∧
    (parse_dummy s).statusBuffer.testBit 1 = s.statusBuffer.testBit 1 := by
  have h2 : dummy_notify_update (dummy_status_update s) =
      { dummy_status_update s with nulPacketReceived := true } := by
    have hc : (dummy_status_update s).command = s.command := by
      simp only [dummy_status_update]
      split_ifs <;> rfl
    unfold dummy_notify_update
    rw [hc, if_neg (by rw [hcmd]; decide), if_neg (by rw [hcmd]; decide),
      if_neg (by rw [hcmd]; decide), if_neg (by rw [hcmd]; decide),
      if_pos hcmd]
    rw [← hc]
  have h1u : (dummy_status_update s).untransPacketCountdown
      = s.untransPacketCountdown := by
    simp only [dummy_status_update]
    split_ifs <;> rfl
  have h1b : (dummy_status_update s).busyPacketCountdown
      = s.busyPacketCountdown := by
    simp only [dummy_status_update]
    split_ifs <;> rfl
  have h1s : (dummy_status_update s).statusBuffer.testBit 1
      = s.statusBuffer.testBit 1 := by
    simp only [dummy_status_update]
    rw [if_neg (by rw [hcmd]; decide), if_pos hcmd]
    split_ifs with h
    · simp [gpb_status_bit_update_print_buffer_full,
        gpb_status_bit_update_testBit]
    · rfl
  simp only [parse_dummy, h2, gpb_sio_next_untrans, gpb_sio_next_busy,
    gpb_sio_next_statusBuffer]
  exact ⟨h1u, h1b, h1s⟩

end GbpEmu

namespace GbpEmu

/-- The three transfer words of an INQUIRY packet after the sync word:
header word, zero length, well-formed checksum. -/
def inquiryHeaderWords : List Nat := [0x0F00, leRaw 0, leRaw 15]

/-- The word-level image of a well-formed PRINT packet with the four-byte
all-zero print instruction payload. -/
def printPacketWords : List Nat := [0x0200, leRaw 4, 0, 0, 0, 0, leRaw 6, 0]

/-- Feeding an INQUIRY packet up to its checksum word: the dummy transfer
is armed with the status word after the countdown step. -/
lemma inquiry_packet_effect (s : EngineState)
    (hps : s.packetState = .GBP_PKT10_PARSE_HEADER_COMMAND_AND_COMPRESSION) :
    (feedWords inquiryHeaderWords s).packetState = .GBP_PKT10_PARSE_DUMMY ∧
    (feedWords inquiryHeaderWords s).command = GBP_COMMAND_INQUIRY ∧
    (feedWords inquiryHeaderWords s).tx_buff
      = (feedWords inquiryHeaderWords s).statusBuffer ∧
    (feedWords inquiryHeaderWords s).untransPacketCountdown =
      (if 0 < s.untransPacketCountdown then s.untransPacketCountdown - 1
       else s.untransPacketCountdown) ∧
    (feedWords inquiryHeaderWords s).busyPacketCountdown =
      (if 0 < s.untransPacketCountdown then s.busyPacketCountdown
       else if 0 < s.busyPacketCountdown then s.busyPacketCountdown - 1
       else s.busyPacketCountdown) ∧
    (feedWords inquiryHeaderWords s).statusBuffer =
      (if 0 < s.untransPacketCountdown then
        (if s.untransPacketCountdown = 1 then
          (if 0 < s.busyPacketCountdown then
            gpb_status_bit_update_print_buffer_full
              (gpb_status_bit_update_printer_busy
                (gpb_status_bit_update_unprocessed_data s.statusBuffer false)
                true) true
          else gpb_status_bit_update_unprocessed_data s.statusBuffer false)
        else s.statusBuffer)
      else if 0 < s.busyPacketCountdown then
        (if s.busyPacketCountdown = 1 then
          gpb_status_bit_update_printer_busy s.statusBuffer false
        else s.statusBuffer)
      else s.statusBuffer) := by
  have h1 := receiveWord_header1 s 0x0F00 hps
  set s1 := gpb_serial_io_receiveWord 0x0F00 s with hs1def
  have hs1ps : s1.packetState = .GBP_PKT10_PARSE_HEADER_DATA_LENGTH := by rw [h1]
  have hs1mode : s1.mode = .GPB_SIO_MODE_16BITS_LITTLE_ENDIAN := by rw [h1]
  have hs1cmd : s1.command = GBP_COMMAND_INQUIRY := by
    rw [h1]
    show (0x0F00 : Nat) / 256 % 256 = GBP_COMMAND_INQUIRY
    decide
  have hs1stat : s1.statusBuffer = s.statusBuffer := by rw [h1]
  have hs1bu : s1.busyPacketCountdown = s.busyPacketCountdown := by rw [h1]
  have hs1un : s1.untransPacketCountdown = s.untransPacketCountdown := by rw [h1]
  have h2 := receiveWord_header2_other s1 (leRaw 0) hs1ps hs1mode
    (by rw [hs1cmd]; decide) (by rw [hs1cmd]; decide)
  set s2 := gpb_serial_io_receiveWord (leRaw 0) s1 with hs2def
  have hs2ps : s2.packetState = .GBP_PKT10_PARSE_CHECKSUM := by rw [h2]
  have hs2cmd : s2.command = GBP_COMMAND_INQUIRY := by rw [h2]; exact hs1cmd
  have hs2stat : s2.statusBuffer = s.statusBuffer := by rw [h2]; exact hs1stat
  have hs2bu : s2.busyPacketCountdown = s.busyPacketCountdown := by
    rw [h2]; exact hs1bu
  have hs2un : s2.untransPacketCountdown = s.untransPacketCountdown := by
    rw [h2]; exact hs1un
  have hfeed : feedWords inquiryHeaderWords s =
      gpb_serial_io_receiveWord (leRaw 15) s2 := by
    show feedWords [0x0F00, leRaw 0, leRaw 15] s = _
    rw [feedWords_cons, feedWords_cons, feedWords_cons, feedWords_nil,
      ← hs1def, ← hs2def]
  rw [hfeed, receiveWord_at_checksum s2 (leRaw 15) hs2ps]
  set sc : EngineState :=
    { s2 with rx_buff := leRaw 15, timeout_ms := GBP_PKT10_TIMEOUT_MS } with hscdef
  have hsccmd : sc.command = GBP_COMMAND_INQUIRY := hs2cmd
  have hinq := parse_checksum_inquiry sc hsccmd
  have hscstat : sc.statusBuffer = s.statusBuffer := hs2stat
  have hscbu : sc.busyPacketCountdown = s.busyPacketCountdown := hs2bu
  have hscun : sc.untransPacketCountdown = s.untransPacketCountdown := hs2un
  refine ⟨parse_checksum_packetState sc, ?_, parse_checksum_tx_eq_status sc,
    ?_, ?_, ?_⟩
  · rw [hinq.2.2.2]; exact hsccmd
  · rw [hinq.2.1, hscun]
  · rw [hinq.2.2.1, hscun, hscbu]
  · rw [hinq.1, hscun, hscbu, hscstat]

/-- Completing the dummy transfer of an INQUIRY packet: back to the first
header state with countdowns and the busy bit untouched. -/
lemma inquiry_dummy_effect (t : EngineState)
    (hps : t.packetState = .GBP_PKT10_PARSE_DUMMY)
    (hcmd : t.command = GBP_COMMAND_INQUIRY) :
    (gpb_serial_io_receiveWord 0 t).packetState
      = .GBP_PKT10_PARSE_HEADER_COMMAND_AND_COMPRESSION ∧
    (gpb_serial_io_receiveWord 0 t).untransPacketCountdown
      = t.untransPacketCountdown ∧
    (gpb_serial_io_receiveWord 0 t).busyPacketCountdown
      = t.busyPacketCountdown ∧
    (gpb_serial_io_receiveWord 0 t).statusBuffer.testBit 1
      = t.statusBuffer.testBit 1 := by
  rw [receiveWord_at_dummy t 0 hps]
  set td : EngineState :=
    { t with rx_buff := 0, timeout_ms := GBP_PKT10_TIMEOUT_MS } with htddef
  have htdcmd : td.command = GBP_COMMAND_INQUIRY := hcmd
  have h := parse_dummy_inquiry td htdcmd
  exact ⟨parse_dummy_packetState td, h.1, h.2.1, h.2.2⟩

end GbpEmu

namespace GbpEmu

/-- Setting the busy bit makes bit 1 of the status word true whatever the
base value. -/
lemma busy_bit_of_set (base : Nat) :
    (gpb_status_bit_update_print_buffer_full
      (gpb_status_bit_update_printer_busy
        (gpb_status_bit_update_unprocessed_data base false) true) true).testBit 1
      = true := by
  unfold gpb_status_bit_update_print_buffer_full gpb_status_bit_update_printer_busy
  rw [gpb_status_bit_update_testBit 2 1 _ true (by norm_num) (by norm_num),
    if_neg (by norm_num),
    gpb_status_bit_update_testBit 1 1 _ true (by norm_num) (by norm_num),
    if_pos rfl]

/-- Clearing the busy bit makes bit 1 of the status word false whatever the
base value. -/
lemma busy_bit_of_clear (base : Nat) :
    (gpb_status_bit_update_printer_busy base false).testBit 1 = false := by
  unfold gpb_status_bit_update_printer_busy
  rw [gpb_status_bit_update_testBit 1 1 _ false (by norm_num) (by norm_num),
    if_pos rfl]

/-- Feeding a whole well-formed zero-payload PRINT packet (including its
dummy word): back to the first header state, the untransmitted countdown
untouched, the busy countdown reloaded. -/
lemma print_packet_effect (s : EngineState)
    (hps : s.packetState = .GBP_PKT10_PARSE_HEADER_COMMAND_AND_COMPRESSION) :
    (feedWords printPacketWords s).packetState
      = .GBP_PKT10_PARSE_HEADER_COMMAND_AND_COMPRESSION ∧
    (feedWords printPacketWords s).untransPacketCountdown
      = s.untransPacketCountdown ∧
    (feedWords printPacketWords s).busyPacketCountdown
      = GPB_BUSY_PACKET_COUNT := by
  have hfeed : feedWords printPacketWords s =
      gpb_serial_io_receiveWord 0 (gpb_serial_io_receiveWord (leRaw 6)
        (feedWords [0, 0, 0, 0] (gpb_serial_io_receiveWord (leRaw 4)
          (gpb_serial_io_receiveWord 0x0200 s)))) := by
    show feedWords (([0x0200] ++ [leRaw 4] ++ [0, 0, 0, 0] ++ [leRaw 6]) ++ [0]) s = _
    rw [feedWords_append, feedWords_append, feedWords_append, feedWords_append]
    rfl
  rw [hfeed]
  have h1 := receiveWord_header1 s 0x0200 hps
  set s1 := gpb_serial_io_receiveWord 0x0200 s with hs1def
  have hs1ps : s1.packetState = .GBP_PKT10_PARSE_HEADER_DATA_LENGTH := by rw [h1]
  have hs1mode : s1.mode = .GPB_SIO_MODE_16BITS_LITTLE_ENDIAN := by rw [h1]
  have hs1cmd : s1.command = GBP_COMMAND_PRINT := by
    rw [h1]
    show (0x0200 : Nat) / 256 % 256 = GBP_COMMAND_PRINT
    decide
  have hs1un : s1.untransPacketCountdown = s.untransPacketCountdown := by rw [h1]
  have h2 := receiveWord_header2_print s1 (leRaw 4) hs1ps hs1mode hs1cmd
  set s2 := gpb_serial_io_receiveWord (leRaw 4) s1 with hs2def
  have hs2ps : s2.packetState = .GBP_PKT10_PARSE_DATA_PAYLOAD := by rw [h2]
  have hs2cmd : s2.command = GBP_COMMAND_PRINT := by rw [h2]; exact hs1cmd
  have hs2len : s2.data_length = 4 := by
    rw [h2]
    show (if 4 < (leRaw 4 / 256) % 256 + (leRaw 4 % 256) * 256 then 4
          else (leRaw 4 / 256) % 256 + (leRaw 4 % 256) * 256) = 4
    decide
  have hs2di : s2.data_i = 0 := by rw [h2]
  have hs2un : s2.untransPacketCountdown = s.untransPacketCountdown := by
    rw [h2]; exact hs1un
  have h3 := feed_payload_print [0, 0, 0, 0] s2 hs2ps hs2cmd (by simp)
    (by simp [hs2di, hs2len]) (by rw [hs2len]; norm_num) (by decide)
  set s3 := feedWords [0, 0, 0, 0] s2 with hs3def
  have hs3ps : s3.packetState = .GBP_PKT10_PARSE_CHECKSUM := by rw [h3]
  have hs3cmd : s3.command = GBP_COMMAND_PRINT := by rw [h3]; exact hs2cmd
  have hs3un : s3.untransPacketCountdown = s.untransPacketCountdown := by
    rw [h3]; exact hs2un
  rw [receiveWord_at_checksum s3 (leRaw 6) hs3ps]
  set sc : EngineState :=
    { s3 with rx_buff := leRaw 6, timeout_ms := GBP_PKT10_TIMEOUT_MS } with hscdef
  have hsccmd : sc.command = GBP_COMMAND_PRINT := hs3cmd
  have hcs := parse_checksum_print sc hsccmd
  rw [receiveWord_at_dummy (parse_checksum sc) 0 (parse_checksum_packetState sc)]
  set sd : EngineState :=
    { parse_checksum sc with rx_buff := 0, timeout_ms := GBP_PKT10_TIMEOUT_MS }
    with hsddef
  have hsdcmd : sd.command = GBP_COMMAND_PRINT := by
    show (parse_checksum sc).command = _
    rw [parse_checksum_command]; exact hsccmd
  have hpd := parse_dummy_print sd hsdcmd
  refine ⟨parse_dummy_packetState sd, ?_, ?_⟩
  · rw [hpd.1]
    show (parse_checksum sc).untransPacketCountdown = s.untransPacketCountdown
    rw [hcs.2.1]
    exact hs3un
  · rw [hpd.2.1]
    show (parse_checksum sc).busyPacketCountdown = GPB_BUSY_PACKET_COUNT
    exact hcs.1

end GbpEmu

namespace GbpEmu

/-- Arming an INQUIRY reply: feed the three packet words up to and
including the checksum word, leaving the dummy transfer armed. -/
def inqArm (s : EngineState) : EngineState := feedWords inquiryHeaderWords s

/-- Completing one whole INQUIRY exchange: arm the reply and then complete
the dummy transfer. -/
def inqNext (s : EngineState) : EngineState :=
  gpb_serial_io_receiveWord 0 (inqArm s)

/-- C3 (counterexample to the claim as stated): from a freshly initialised
engine, a well-formed PRINT packet completes (the print instruction is
notified), yet already the first following INQUIRY packet arms a dummy
reply whose printer-busy bit (bit 1) is clear — it does not report busy. -/
theorem C3_counterexample :
    (feedWords [0x0200, leRaw 4, 1, 3, 0xE4, 0x40, leRaw 302, 0]
        (initialState 4)).printInstructionReceived = true ∧
    (feedWords [0x0200, leRaw 4, 1, 3, 0xE4, 0x40, leRaw 302, 0,
        0x0F00, leRaw 0, leRaw 15] (initialState 4)).packetState
      = .GBP_PKT10_PARSE_DUMMY ∧
    (feedWords [0x0200, leRaw 4, 1, 3, 0xE4, 0x40, leRaw 302, 0,
        0x0F00, leRaw 0, leRaw 15] (initialState 4)).tx_buff.testBit 1
      = false := by
  decide

end GbpEmu

namespace GbpEmu

/-- C3 (amended): if at least one received data packet is still
untransmitted — the untransmitted countdown stands at 1 — when a
well-formed PRINT packet completes, then the next three successive INQUIRY
packets each arm a dummy reply with the printer-busy bit (bit 1) set, and
the fourth INQUIRY packet arms it with the busy bit cleared. -/
theorem C3_busy_window_amended (st : EngineState)
    (hps : st.packetState = .GBP_PKT10_PARSE_HEADER_COMMAND_AND_COMPRESSION)
    (hun : st.untransPacketCountdown = 1) :
    (inqArm (feedWords printPacketWords st)).tx_buff.testBit 1 = true ∧
    (inqArm (inqNext (feedWords printPacketWords st))).tx_buff.testBit 1
      = true ∧
    (inqArm (inqNext (inqNext
      (feedWords printPacketWords st)))).tx_buff.testBit 1 = true ∧
    (inqArm (inqNext (inqNext (inqNext
      (feedWords printPacketWords st))))).tx_buff.testBit 1 = false := by
  obtain ⟨hpps, hpun, hpbu⟩ := print_packet_effect st hps
  rw [hun] at hpun
  have hpbu3 : (feedWords printPacketWords st).busyPacketCountdown = 3 := hpbu
  simp only [inqArm, inqNext]
  set p := feedWords printPacketWords st with hpdef
  have h1 := inquiry_packet_effect p hpps
  set q1 := feedWords inquiryHeaderWords p with hq1def
  have hq1ps := h1.1
  have hq1cmd := h1.2.1
  have hq1un : q1.untransPacketCountdown = 0 := by
    rw [h1.2.2.2.1, hpun]; norm_num
  have hq1bu : q1.busyPacketCountdown = 3 := by
    rw [h1.2.2.2.2.1, hpun, hpbu3]; norm_num
  have hq1bit : q1.statusBuffer.testBit 1 = true := by
    rw [h1.2.2.2.2.2, hpun, hpbu3,
      if_pos (by norm_num : (0 : Int) < 1), if_pos (rfl : (1 : Int) = 1),
      if_pos (by norm_num : (0 : Int) < 3)]
    exact busy_bit_of_set _
  have htx1 : q1.tx_buff.testBit 1 = true := by
    rw [h1.2.2.1]; exact hq1bit
  have hd1 := inquiry_dummy_effect q1 hq1ps hq1cmd
  set d1 := gpb_serial_io_receiveWord 0 q1 with hd1def
  have hd1ps := hd1.1
  have hd1un : d1.untransPacketCountdown = 0 := by rw [hd1.2.1]; exact hq1un
  have hd1bu : d1.busyPacketCountdown = 3 := by rw [hd1.2.2.1]; exact hq1bu
  have hd1bit : d1.statusBuffer.testBit 1 = true := by
    rw [hd1.2.2.2]; exact hq1bit
  have h2 := inquiry_packet_effect d1 hd1ps
  set q2 := feedWords inquiryHeaderWords d1 with hq2def
  have hq2ps := h2.1
  have hq2cmd := h2.2.1
  have hq2un : q2.untransPacketCountdown = 0 := by
    rw [h2.2.2.2.1, hd1un]; norm_num
  have hq2bu : q2.busyPacketCountdown = 2 := by
    rw [h2.2.2.2.2.1, hd1un, hd1bu]; norm_num
  have hq2bit : q2.statusBuffer.testBit 1 = true := by
    rw [h2.2.2.2.2.2, hd1un, hd1bu,
      if_neg (by norm_num : ¬ (0 : Int) < 0),
      if_pos (by norm_num : (0 : Int) < 3),
      if_neg (by norm_num : ¬ (3 : Int) = 1)]
    exact hd1bit
  have htx2 : q2.tx_buff.testBit 1 = true := by
    rw [h2.2.2.1]; exact hq2bit
  have hd2 := inquiry_dummy_effect q2 hq2ps hq2cmd
  set d2 := gpb_serial_io_receiveWord 0 q2 with hd2def
  have hd2ps := hd2.1
  have hd2un : d2.untransPacketCountdown = 0 := by rw [hd2.2.1]; exact hq2un
  have hd2bu : d2.busyPacketCountdown = 2 := by rw [hd2.2.2.1]; exact hq2bu
  have hd2bit : d2.statusBuffer.testBit 1 = true := by
    rw [hd2.2.2.2]; exact hq2bit
  have h3 := inquiry_packet_effect d2 hd2ps
  set q3 := feedWords inquiryHeaderWords d2 with hq3def
  have hq3ps := h3.1
  have hq3cmd := h3.2.1
  have hq3un : q3.untransPacketCountdown = 0 := by
    rw [h3.2.2.2.1, hd2un]; norm_num
  have hq3bu : q3.busyPacketCountdown = 1 := by
    rw [h3.2.2.2.2.1, hd2un, hd2bu]; norm_num
  have hq3bit : q3.statusBuffer.testBit 1 = true := by
    rw [h3.2.2.2.2.2, hd2un, hd2bu,
      if_neg (by norm_num : ¬ (0 : Int) < 0),
      if_pos (by norm_num : (0 : Int) < 2),
      if_neg (by norm_num : ¬ (2 : Int) = 1)]
    exact hd2bit
  have htx3 : q3.tx_buff.testBit 1 = true := by
    rw [h3.2.2.1]; exact hq3bit
  have hd3 := inquiry_dummy_effect q3 hq3ps hq3cmd
  set d3 := gpb_serial_io_receiveWord 0 q3 with hd3def
  have hd3ps := hd3.1
  have hd3un : d3.untransPacketCountdown = 0 := by rw [hd3.2.1]; exact hq3un
  have hd3bu : d3.busyPacketCountdown = 1 := by rw [hd3.2.2.1]; exact hq3bu
  have h4 := inquiry_packet_effect d3 hd3ps
  set q4 := feedWords inquiryHeaderWords d3 with hq4def
  have hq4bit : q4.statusBuffer.testBit 1 = false := by
    rw [h4.2.2.2.2.2, hd3un, hd3bu,
      if_neg (by norm_num : ¬ (0 : Int) < 0),
      if_pos (by norm_num : (0 : Int) < 1), if_pos (rfl : (1 : Int) = 1)]
    exact busy_bit_of_clear _
  have htx4 : q4.tx_buff.testBit 1 = false := by
    rw [h4.2.2.1]; exact hq4bit
  exact ⟨htx1, htx2, htx3, htx4⟩

/-- The state of a freshly initialised engine with one received data packet
still untransmitted. -/
def c3WitnessState : EngineState :=
  { initialState 4 with untransPacketCountdown := 1 }

/-- C3 (amended), instantiated on a freshly initialised engine holding one
untransmitted data packet. -/
theorem C3_busy_window_amended_witness :
    c3WitnessState.packetState
      = .GBP_PKT10_PARSE_HEADER_COMMAND_AND_COMPRESSION ∧
    c3WitnessState.untransPacketCountdown = 1 ∧
    ((inqArm (feedWords printPacketWords c3WitnessState)).tx_buff.testBit 1
        = true ∧
      (inqArm (inqNext
        (feedWords printPacketWords c3WitnessState))).tx_buff.testBit 1
        = true ∧
      (inqArm (inqNext (inqNext
        (feedWords printPacketWords c3WitnessState)))).tx_buff.testBit 1
        = true ∧
      (inqArm (inqNext (inqNext (inqNext
        (feedWords printPacketWords c3WitnessState))))).tx_buff.testBit 1
        = false) :=
  ⟨by decide, by decide, C3_busy_window_amended c3WitnessState (by decide)
    (by decide)⟩

end GbpEmu


namespace GbpEmu

/-- The reset call touches only the synchroniser, the shift registers, the
status word and the ring buffer. -/
lemma gpb_serial_io_reset_keep (st : EngineState) :
    (gpb_serial_io_reset st).dataPacketCountdown = st.dataPacketCountdown ∧
    (gpb_serial_io_reset st).untransPacketCountdown
      = st.untransPacketCountdown ∧
    (gpb_serial_io_reset st).busyPacketCountdown = st.busyPacketCountdown ∧
    (gpb_serial_io_reset st).packetState = st.packetState ∧
    (gpb_serial_io_reset st).command = st.command ∧
    (gpb_serial_io_reset st).data_i = st.data_i ∧
    (gpb_serial_io_reset st).data_length = st.data_length ∧
    (gpb_serial_io_reset st).printInstructionBuffer
      = st.printInstructionBuffer :=
  ⟨rfl, rfl, rfl, rfl, rfl, rfl, rfl, rfl⟩

/-- The init call zeroes the busy countdown and otherwise touches only the
status word, the ring buffer and what the reset touches. -/
lemma gpb_serial_io_init_keep (b : Nat) (st : EngineState) :
    (gpb_serial_io_init b st).dataPacketCountdown = st.dataPacketCountdown ∧
    (gpb_serial_io_init b st).untransPacketCountdown
      = st.untransPacketCountdown ∧
    (gpb_serial_io_init b st).busyPacketCountdown = 0 ∧
    (gpb_serial_io_init b st).packetState = st.packetState ∧
    (gpb_serial_io_init b st).command = st.command ∧
    (gpb_serial_io_init b st).data_i = st.data_i ∧
    (gpb_serial_io_init b st).data_length = st.data_length ∧
    (gpb_serial_io_init b st).printInstructionBuffer
      = st.printInstructionBuffer :=
  ⟨rfl, rfl, rfl, rfl, rfl, rfl, rfl, rfl⟩

/-- The tick either resets or decrements the timeout; either way the
parser-level fields and the countdowns are untouched. -/
lemma timeout_handler_keep (st : EngineState) (e : Nat) :
    (gbp_serial_io_timeout_handler st e).1.dataPacketCountdown
      = st.dataPacketCountdown ∧
    (gbp_serial_io_timeout_handler st e).1.untransPacketCountdown
      = st.untransPacketCountdown ∧
    (gbp_serial_io_timeout_handler st e).1.busyPacketCountdown
      = st.busyPacketCountdown ∧
    (gbp_serial_io_timeout_handler st e).1.packetState = st.packetState ∧
    (gbp_serial_io_timeout_handler st e).1.command = st.command ∧
    (gbp_serial_io_timeout_handler st e).1.data_i = st.data_i ∧
    (gbp_serial_io_timeout_handler st e).1.data_length = st.data_length ∧
    (gbp_serial_io_timeout_handler st e).1.printInstructionBuffer
      = st.printInstructionBuffer := by
  simp only [gbp_serial_io_timeout_handler]
  split_ifs <;> exact ⟨rfl, rfl, rfl, rfl, rfl, rfl, rfl, rfl⟩

/-- Dequeuing a byte touches only the ring buffer and the status word. -/
lemma dataBuff_getByte_keep (st : EngineState) :
    (gbp_serial_io_dataBuff_getByte st).2.dataPacketCountdown
      = st.dataPacketCountdown ∧
    (gbp_serial_io_dataBuff_getByte st).2.untransPacketCountdown
      = st.untransPacketCountdown ∧
    (gbp_serial_io_dataBuff_getByte st).2.busyPacketCountdown
      = st.busyPacketCountdown ∧
    (gbp_serial_io_dataBuff_getByte st).2.packetState = st.packetState ∧
    (gbp_serial_io_dataBuff_getByte st).2.command = st.command ∧
    (gbp_serial_io_dataBuff_getByte st).2.data_i = st.data_i ∧
    (gbp_serial_io_dataBuff_getByte st).2.data_length = st.data_length ∧
    (gbp_serial_io_dataBuff_getByte st).2.printInstructionBuffer
      = st.printInstructionBuffer := by
  simp only [gbp_serial_io_dataBuff_getByte]
  split_ifs <;> exact ⟨rfl, rfl, rfl, rfl, rfl, rfl, rfl, rfl⟩

/-- The INQUIRY countdown block leaves each countdown either unchanged or
strictly decremented from a positive value. -/
lemma checksum_inquiry_countdown_counters (t : EngineState) :
    (checksum_inquiry_countdown t).dataPacketCountdown
      = t.dataPacketCountdown ∧
    ((checksum_inquiry_countdown t).untransPacketCountdown
        = t.untransPacketCountdown ∨
      0 ≤ (checksum_inquiry_countdown t).untransPacketCountdown ∧
      (checksum_inquiry_countdown t).untransPacketCountdown
        < t.untransPacketCountdown) ∧
    ((checksum_inquiry_countdown t).busyPacketCountdown
        = t.busyPacketCountdown ∨
      0 ≤ (checksum_inquiry_countdown t).busyPacketCountdown ∧
      (checksum_inquiry_countdown t).busyPacketCountdown
        < t.busyPacketCountdown) := by
  simp only [checksum_inquiry_countdown]
  split_ifs <;> refine ⟨rfl, ?_, ?_⟩ <;> simp <;> omega

/-- Countdown bounds of the post-dummy command switch: the data countdown
is unchanged or strictly decremented from a positive value, the other two
are untouched. -/
lemma dummy_status_update_counters (t : EngineState) :
    ((dummy_status_update t).dataPacketCountdown = t.dataPacketCountdown ∨
      0 ≤ (dummy_status_update t).dataPacketCountdown ∧
      (dummy_status_update t).dataPacketCountdown
        < t.dataPacketCountdown) ∧
    (dummy_status_update t).untransPacketCountdown
      = t.untransPacketCountdown ∧
    (dummy_status_update t).busyPacketCountdown
      = t.busyPacketCountdown := by
  simp only [dummy_status_update]
  split_ifs <;> refine ⟨?_, rfl, rfl⟩ <;> simp <;> omega

/-- The notification switch never touches the countdowns. -/
lemma dummy_notify_update_counters (t : EngineState) :
    (dummy_notify_update t).dataPacketCountdown = t.dataPacketCountdown ∧
    (dummy_notify_update t).untransPacketCountdown
      = t.untransPacketCountdown ∧
    (dummy_notify_update t).busyPacketCountdown
      = t.busyPacketCountdown := by
  simp only [dummy_notify_update]
  split_ifs <;> exact ⟨rfl, rfl, rfl⟩

/-- Countdown bounds of the whole dummy-state transition. -/
lemma parse_dummy_counters (t : EngineState) :
    ((parse_dummy t).dataPacketCountdown = t.dataPacketCountdown ∨
      0 ≤ (parse_dummy t).dataPacketCountdown ∧
      (parse_dummy t).dataPacketCountdown < t.dataPacketCountdown) ∧
    (parse_dummy t).untransPacketCountdown = t.untransPacketCountdown ∧
    (parse_dummy t).busyPacketCountdown = t.busyPacketCountdown := by
  have hs := dummy_status_update_counters t
  have hn := dummy_notify_update_counters (dummy_status_update t)
  have hd : (parse_dummy t).dataPacketCountdown
      = (dummy_notify_update (dummy_status_update t)).dataPacketCountdown := by
    simp only [parse_dummy, gpb_sio_next_dataCnt]
  have hu : (parse_dummy t).untransPacketCountdown
      = (dummy_notify_update (dummy_status_update t)).untransPacketCountdown := by
    simp only [parse_dummy, gpb_sio_next_untrans]
  have hb : (parse_dummy t).busyPacketCountdown
      = (dummy_notify_update (dummy_status_update t)).busyPacketCountdown := by
    simp only [parse_dummy, gpb_sio_next_busy]
  rw [hd, hu, hb, hn.1, hn.2.1, hn.2.2]
  exact hs

end GbpEmu

namespace GbpEmu

/-- The INIT branch of the pre-dummy command switch reloads the data
countdown and zeroes the other two. -/
lemma checksum_command_update_init (s : EngineState)
    (hcmd : s.command = GBP_COMMAND_INIT) :
    checksum_command_update s =
      { s with dataPacketCountdown := 6, untransPacketCountdown := 0,
               busyPacketCountdown := 0,
               statusBuffer :=
                 gpb_status_bit_update_print_buffer_full s.statusBuffer false } := by
  unfold checksum_command_update
  rw [if_pos hcmd]

/-- The DATA branch of the pre-dummy command switch reloads the
untransmitted countdown. -/
lemma checksum_command_update_data (s : EngineState)
    (hcmd : s.command = GBP_COMMAND_DATA) :
    checksum_command_update s = { s with untransPacketCountdown := 3 } := by
  unfold checksum_command_update
  rw [if_neg (by rw [hcmd]; decide), if_neg (by rw [hcmd]; decide),
    if_pos hcmd]

/-- An unknown command leaves the pre-dummy command switch inert. -/
lemma checksum_command_update_other (s : EngineState)
    (h1 : ¬ s.command = GBP_COMMAND_INIT)
    (h2 : ¬ s.command = GBP_COMMAND_PRINT)
    (h3 : ¬ s.command = GBP_COMMAND_DATA)
    (h4 : ¬ s.command = GBP_COMMAND_BREAK)
    (h5 : ¬ s.command = GBP_COMMAND_INQUIRY) :
    checksum_command_update s = s := by
  unfold checksum_command_update
  rw [if_neg h1, if_neg h2, if_neg h3, if_neg h4, if_neg h5]

/-- Countdown effect of the checksum-state transition of an INIT packet. -/
lemma parse_checksum_init (s : EngineState)
    (hcmd : s.command = GBP_COMMAND_INIT) :
    (parse_checksum s).dataPacketCountdown = 6 ∧
    (parse_checksum s).untransPacketCountdown = 0 ∧
    (parse_checksum s).busyPacketCountdown = 0 := by
  simp only [parse_checksum, gpb_sio_next_dataCnt, gpb_sio_next_untrans,
    gpb_sio_next_busy]
  rw [checksum_command_update_init _ (by simp [hcmd])]
  exact ⟨rfl, rfl, rfl⟩

/-- Countdown effect of the checksum-state transition of a DATA packet. -/
lemma parse_checksum_data (s : EngineState)
    (hcmd : s.command = GBP_COMMAND_DATA) :
    (parse_checksum s).dataPacketCountdown = s.dataPacketCountdown ∧
    (parse_checksum s).untransPacketCountdown = 3 ∧
    (parse_checksum s).busyPacketCountdown = s.busyPacketCountdown := by
  simp only [parse_checksum, gpb_sio_next_dataCnt, gpb_sio_next_untrans,
    gpb_sio_next_busy]
  rw [checksum_command_update_data _ (by simp [hcmd])]
  exact ⟨rfl, rfl, rfl⟩

/-- Countdown effect of the checksum-state transition of an unknown
command: untouched. -/
lemma parse_checksum_other (s : EngineState)
    (h1 : ¬ s.command = GBP_COMMAND_INIT)
    (h2 : ¬ s.command = GBP_COMMAND_PRINT)
    (h3 : ¬ s.command = GBP_COMMAND_DATA)
    (h4 : ¬ s.command = GBP_COMMAND_BREAK)
    (h5 : ¬ s.command = GBP_COMMAND_INQUIRY) :
    (parse_checksum s).dataPacketCountdown = s.dataPacketCountdown ∧
    (parse_checksum s).untransPacketCountdown = s.untransPacketCountdown ∧
    (parse_checksum s).busyPacketCountdown = s.busyPacketCountdown := by
  simp only [parse_checksum, gpb_sio_next_dataCnt, gpb_sio_next_untrans,
    gpb_sio_next_busy]
  rw [checksum_command_update_other _ (by simp [h1]) (by simp [h2])
    (by simp [h3]) (by simp [h4]) (by simp [h5])]
  exact ⟨rfl, rfl, rfl⟩

/-- The checksum-state INQUIRY transition leaves the data countdown
alone. -/
lemma parse_checksum_inquiry_dataCnt (s : EngineState)
    (hcmd : s.command = GBP_COMMAND_INQUIRY) :
    (parse_checksum s).dataPacketCountdown = s.dataPacketCountdown := by
  simp only [parse_checksum, gpb_sio_next_dataCnt]
  rw [checksum_command_update_inquiry _ (by simp [hcmd]),
    checksum_inquiry_countdown_eq]

/-- Countdown bounds of the whole checksum-state transition. -/
lemma parse_checksum_counters (t : EngineState) :
    (¬(t.command = GBP_COMMAND_INIT ∨ t.command = GBP_COMMAND_PRINT ∨
        t.command = GBP_COMMAND_DATA) →
      (parse_checksum t).dataPacketCountdown ≤ t.dataPacketCountdown ∧
      (parse_checksum t).untransPacketCountdown
          ≤ t.untransPacketCountdown ∧
      (parse_checksum t).busyPacketCountdown ≤ t.busyPacketCountdown) ∧
    (0 ≤ t.dataPacketCountdown → 0 ≤ t.untransPacketCountdown →
      0 ≤ t.busyPacketCountdown →
      0 ≤ (parse_checksum t).dataPacketCountdown ∧
      0 ≤ (parse_checksum t).untransPacketCountdown ∧
      0 ≤ (parse_checksum t).busyPacketCountdown) := by
  by_cases hI : t.command = GBP_COMMAND_INIT
  · obtain ⟨ha, hb, hc⟩ := parse_checksum_init t hI
    refine ⟨fun hex => absurd (Or.inl hI) hex, fun _ _ _ => ?_⟩
    rw [ha, hb, hc]
    norm_num
  by_cases hP : t.command = GBP_COMMAND_PRINT
  · obtain ⟨ha, hb, hc, -, -⟩ := parse_checksum_print t hP
    refine ⟨fun hex => absurd (Or.inr (Or.inl hP)) hex, fun h1 h2 _ => ?_⟩
    rw [ha, hb, hc]
    refine ⟨h1, h2, by decide⟩
  by_cases hD : t.command = GBP_COMMAND_DATA
  · obtain ⟨ha, hb, hc⟩ := parse_checksum_data t hD
    refine ⟨fun hex => absurd (Or.inr (Or.inr hD)) hex, fun h1 _ h3 => ?_⟩
    rw [ha, hb, hc]
    refine ⟨h1, by norm_num, h3⟩
  by_cases hB : t.command = GBP_COMMAND_BREAK
  · obtain ⟨-, hb, hc, ha⟩ := parse_checksum_break t hB
    rw [ha, hb, hc]
    constructor
    · intro _
      refine ⟨le_refl _, ?_, ?_⟩ <;> split_ifs <;> omega
    · intro h1 h2 h3
      refine ⟨h1, ?_, ?_⟩ <;> split_ifs <;> omega
  by_cases hQ : t.command = GBP_COMMAND_INQUIRY
  · obtain ⟨-, hb, hc, -⟩ := parse_checksum_inquiry t hQ
    have ha := parse_checksum_inquiry_dataCnt t hQ
    rw [ha, hb, hc]
    constructor
    · intro _
      refine ⟨le_refl _, ?_, ?_⟩ <;> split_ifs <;> omega
    · intro h1 h2 h3
      refine ⟨h1, ?_, ?_⟩ <;> split_ifs <;> omega
  · obtain ⟨ha, hb, hc⟩ := parse_checksum_other t hI hP hD hB hQ
    rw [ha, hb, hc]
    exact ⟨fun _ => ⟨le_refl _, le_refl _, le_refl _⟩,
      fun h1 h2 h3 => ⟨h1, h2, h3⟩⟩

end GbpEmu

namespace GbpEmu

/-- One packet-layer transition never increases any of the three
countdowns, except in the checksum state under an INIT, PRINT or DATA
command. -/
lemma gbp_packet_parse_mono (s : EngineState)
    (hex : s.packetState = .GBP_PKT10_PARSE_CHECKSUM →
      ¬(s.command = GBP_COMMAND_INIT ∨ s.command = GBP_COMMAND_PRINT ∨
        s.command = GBP_COMMAND_DATA)) :
    (gbp_packet_parse s).dataPacketCountdown ≤ s.dataPacketCountdown ∧
    (gbp_packet_parse s).untransPacketCountdown
      ≤ s.untransPacketCountdown ∧
    (gbp_packet_parse s).busyPacketCountdown ≤ s.busyPacketCountdown := by
  cases hps : s.packetState
  case GBP_PKT10_PARSE_HEADER_COMMAND_AND_COMPRESSION =>
    have heq : gbp_packet_parse s = parse_header_command_and_compression
        { s with timeout_ms := GBP_PKT10_TIMEOUT_MS } := by
      simp [gbp_packet_parse, hps]
    rw [heq]
    simp [parse_header_command_and_compression, gpb_sio_next_dataCnt,
      gpb_sio_next_untrans, gpb_sio_next_busy]
  case GBP_PKT10_PARSE_HEADER_DATA_LENGTH =>
    have heq : gbp_packet_parse s = parse_header_data_length
        { s with timeout_ms := GBP_PKT10_TIMEOUT_MS } := by
      simp [gbp_packet_parse, hps]
    rw [heq]
    simp only [parse_header_data_length]
    split_ifs <;>
      simp [gpb_sio_next_dataCnt, gpb_sio_next_untrans, gpb_sio_next_busy]
  case GBP_PKT10_PARSE_DATA_PAYLOAD =>
    have heq : gbp_packet_parse s = parse_data_payload
        { s with timeout_ms := GBP_PKT10_TIMEOUT_MS } := by
      simp [gbp_packet_parse, hps]
    rw [heq]
    simp only [parse_data_payload]
    split_ifs <;>
      simp [gpb_sio_next_dataCnt, gpb_sio_next_untrans, gpb_sio_next_busy]
  case GBP_PKT10_PARSE_CHECKSUM =>
    have hc := hex hps
    have heq : gbp_packet_parse s = parse_checksum
        { s with timeout_ms := GBP_PKT10_TIMEOUT_MS } := by
      simp [gbp_packet_parse, hps]
    rw [heq]
    exact (parse_checksum_counters
      { s with timeout_ms := GBP_PKT10_TIMEOUT_MS }).1 hc
  case GBP_PKT10_PARSE_DUMMY =>
    have heq : gbp_packet_parse s = parse_dummy
        { s with timeout_ms := GBP_PKT10_TIMEOUT_MS } := by
      simp [gbp_packet_parse, hps]
    rw [heq]
    obtain ⟨ha, hb, hc⟩ :=
      parse_dummy_counters { s with timeout_ms := GBP_PKT10_TIMEOUT_MS }
    have ha' : (parse_dummy
          { s with timeout_ms := GBP_PKT10_TIMEOUT_MS }).dataPacketCountdown
          = s.dataPacketCountdown ∨
        0 ≤ (parse_dummy
          { s with timeout_ms := GBP_PKT10_TIMEOUT_MS }).dataPacketCountdown ∧
        (parse_dummy
          { s with timeout_ms := GBP_PKT10_TIMEOUT_MS }).dataPacketCountdown
          < s.dataPacketCountdown := ha
    have hb' : (parse_dummy
          { s with timeout_ms := GBP_PKT10_TIMEOUT_MS }).untransPacketCountdown
          = s.untransPacketCountdown := hb
    have hc' : (parse_dummy
          { s with timeout_ms := GBP_PKT10_TIMEOUT_MS }).busyPacketCountdown
          = s.busyPacketCountdown := hc
    rw [hb', hc']
    refine ⟨?_, le_refl _, le_refl _⟩
    rcases ha' with h' | h' <;> omega

/-- One packet-layer transition keeps all three countdowns nonnegative. -/
lemma gbp_packet_parse_nonneg (s : EngineState)
    (h1 : 0 ≤ s.dataPacketCountdown) (h2 : 0 ≤ s.untransPacketCountdown)
    (h3 : 0 ≤ s.busyPacketCountdown) :
    0 ≤ (gbp_packet_parse s).dataPacketCountdown ∧
    0 ≤ (gbp_packet_parse s).untransPacketCountdown ∧
    0 ≤ (gbp_packet_parse s).busyPacketCountdown := by
  cases hps : s.packetState
  case GBP_PKT10_PARSE_HEADER_COMMAND_AND_COMPRESSION =>
    have heq : gbp_packet_parse s = parse_header_command_and_compression
        { s with timeout_ms := GBP_PKT10_TIMEOUT_MS } := by
      simp [gbp_packet_parse, hps]
    rw [heq]
    simp [parse_header_command_and_compression, gpb_sio_next_dataCnt,
      gpb_sio_next_untrans, gpb_sio_next_busy, h1, h2, h3]
  case GBP_PKT10_PARSE_HEADER_DATA_LENGTH =>
    have heq : gbp_packet_parse s = parse_header_data_length
        { s with timeout_ms := GBP_PKT10_TIMEOUT_MS } := by
      simp [gbp_packet_parse, hps]
    rw [heq]
    simp only [parse_header_data_length]
    split_ifs <;>
      simp [gpb_sio_next_dataCnt, gpb_sio_next_untrans, gpb_sio_next_busy,
        h1, h2, h3]
  case GBP_PKT10_PARSE_DATA_PAYLOAD =>
    have heq : gbp_packet_parse s = parse_data_payload
        { s with timeout_ms := GBP_PKT10_TIMEOUT_MS } := by
      simp [gbp_packet_parse, hps]
    rw [heq]
    simp only [parse_data_payload]
    split_ifs <;>
      simp [gpb_sio_next_dataCnt, gpb_sio_next_untrans, gpb_sio_next_busy,
        h1, h2, h3]
  case GBP_PKT10_PARSE_CHECKSUM =>
    have heq : gbp_packet_parse s = parse_checksum
        { s with timeout_ms := GBP_PKT10_TIMEOUT_MS } := by
      simp [gbp_packet_parse, hps]
    rw [heq]
    exact (parse_checksum_counters
      { s with timeout_ms := GBP_PKT10_TIMEOUT_MS }).2 h1 h2 h3
  case GBP_PKT10_PARSE_DUMMY =>
    have heq : gbp_packet_parse s = parse_dummy
        { s with timeout_ms := GBP_PKT10_TIMEOUT_MS } := by
      simp [gbp_packet_parse, hps]
    rw [heq]
    obtain ⟨ha, hb, hc⟩ :=
      parse_dummy_counters { s with timeout_ms := GBP_PKT10_TIMEOUT_MS }
    have ha' : (parse_dummy
          { s with timeout_ms := GBP_PKT10_TIMEOUT_MS }).dataPacketCountdown
          = s.dataPacketCountdown ∨
        0 ≤ (parse_dummy
          { s with timeout_ms := GBP_PKT10_TIMEOUT_MS }).dataPacketCountdown ∧
        (parse_dummy
          { s with timeout_ms := GBP_PKT10_TIMEOUT_MS }).dataPacketCountdown
          < s.dataPacketCountdown := ha
    have hb' : (parse_dummy
          { s with timeout_ms := GBP_PKT10_TIMEOUT_MS }).untransPacketCountdown
          = s.untransPacketCountdown := hb
    have hc' : (parse_dummy
          { s with timeout_ms := GBP_PKT10_TIMEOUT_MS }).busyPacketCountdown
          = s.busyPacketCountdown := hc
    rw [hb', hc']
    refine ⟨?_, h2, h3⟩
    rcases ha' with h' | h' <;> omega

end GbpEmu

namespace GbpEmu

/-- A clock edge keeps all three countdowns nonnegative. -/
lemma OnChange_ISR_nonneg (sclk sout : Bool) (st : EngineState)
    (h1 : 0 ≤ st.dataPacketCountdown) (h2 : 0 ≤ st.untransPacketCountdown)
    (h3 : 0 ≤ st.busyPacketCountdown) :
    0 ≤ (gpb_serial_io_OnChange_ISR sclk sout st).1.dataPacketCountdown ∧
    0 ≤ (gpb_serial_io_OnChange_ISR sclk sout st).1.untransPacketCountdown ∧
    0 ≤ (gpb_serial_io_OnChange_ISR sclk sout st).1.busyPacketCountdown := by
  simp only [gpb_serial_io_OnChange_ISR]
  split_ifs
  all_goals
    first
      | exact ⟨h1, h2, h3⟩
      | exact gbp_packet_parse_nonneg _ h1 h2 h3
      | (refine ⟨?_, ?_, ?_⟩ <;>
          simp [gpb_sio_next_dataCnt, gpb_sio_next_untrans,
            gpb_sio_next_busy, h1, h2, h3])

/-- Every reachable state has nonnegative countdowns. -/
lemma reachable_counters_nonneg (st : EngineState) (h : Reachable st) :
    0 ≤ st.dataPacketCountdown ∧ 0 ≤ st.untransPacketCountdown ∧
    0 ≤ st.busyPacketCountdown := by
  induction h with
  | init_start b =>
      refine ⟨?_, ?_, ?_⟩ <;>
        simp [initialState, gpb_serial_io_init, gpb_serial_io_reset,
          zeroedState]
  | edge st sclk sout hr ih =>
      exact OnChange_ISR_nonneg sclk sout st ih.1 ih.2.1 ih.2.2
  | word st w hr ih =>
      exact gbp_packet_parse_nonneg { st with rx_buff := w } ih.1 ih.2.1 ih.2.2
  | tick st e hr ih =>
      obtain ⟨ha, hb, hc, -, -, -, -, -⟩ := timeout_handler_keep st e
      rw [ha, hb, hc]
      exact ih
  | reset st hr ih =>
      obtain ⟨ha, hb, hc, -, -, -, -, -⟩ := gpb_serial_io_reset_keep st
      rw [ha, hb, hc]
      exact ih
  | drain st hr ih =>
      obtain ⟨ha, hb, hc, -, -, -, -, -⟩ := dataBuff_getByte_keep st
      rw [ha, hb, hc]
      exact ih
  | reinit st b hr ih =>
      obtain ⟨ha, hb, hc, -, -, -, -, -⟩ := gpb_serial_io_init_keep b st
      rw [ha, hb, hc]
      exact ⟨ih.1, ih.2.1, le_refl 0⟩

end GbpEmu

namespace GbpEmu

/-- C7: in every reachable state none of the three sequencing countdowns
is negative, and across a completed transfer each countdown is
non-increasing unless the transfer closes the checksum state of an INIT,
PRINT or DATA packet (whose handlers reload a countdown). -/
theorem C7_counters (st : EngineState) (h : Reachable st) :
    (0 ≤ st.dataPacketCountdown ∧ 0 ≤ st.untransPacketCountdown ∧
      0 ≤ st.busyPacketCountdown) ∧
    ∀ w : Nat,
      ((gpb_serial_io_receiveWord w st).dataPacketCountdown
          ≤ st.dataPacketCountdown ∧
        (gpb_serial_io_receiveWord w st).untransPacketCountdown
          ≤ st.untransPacketCountdown ∧
        (gpb_serial_io_receiveWord w st).busyPacketCountdown
          ≤ st.busyPacketCountdown) ∨
      (st.packetState = .GBP_PKT10_PARSE_CHECKSUM ∧
        (st.command = GBP_COMMAND_INIT ∨ st.command = GBP_COMMAND_PRINT ∨
          st.command = GBP_COMMAND_DATA)) := by
  refine ⟨reachable_counters_nonneg st h, ?_⟩
  intro w
  by_cases hex : st.packetState = .GBP_PKT10_PARSE_CHECKSUM ∧
      (st.command = GBP_COMMAND_INIT ∨ st.command = GBP_COMMAND_PRINT ∨
        st.command = GBP_COMMAND_DATA)
  · exact Or.inr hex
  · left
    exact gbp_packet_parse_mono { st with rx_buff := w }
      (fun hps hor => hex ⟨hps, hor⟩)

/-- C7, instantiated on a freshly initialised engine. -/
theorem C7_counters_witness :
    (0 ≤ (initialState 4).dataPacketCountdown ∧
      0 ≤ (initialState 4).untransPacketCountdown ∧
      0 ≤ (initialState 4).busyPacketCountdown) ∧
    ∀ w : Nat,
      ((gpb_serial_io_receiveWord w (initialState 4)).dataPacketCountdown
          ≤ (initialState 4).dataPacketCountdown ∧
        (gpb_serial_io_receiveWord w (initialState 4)).untransPacketCountdown
          ≤ (initialState 4).untransPacketCountdown ∧
        (gpb_serial_io_receiveWord w (initialState 4)).busyPacketCountdown
          ≤ (initialState 4).busyPacketCountdown) ∨
      ((initialState 4).packetState = .GBP_PKT10_PARSE_CHECKSUM ∧
        ((initialState 4).command = GBP_COMMAND_INIT ∨
          (initialState 4).command = GBP_COMMAND_PRINT ∨
          (initialState 4).command = GBP_COMMAND_DATA)) :=
  C7_counters (initialState 4) (Reachable.init_start 4)

end GbpEmu

namespace GbpEmu

/-- Arming a new transfer leaves the print-instruction buffer alone. -/
lemma gpb_sio_next_printBuffer (m : gpb_sio_mode_t) (t : Nat)
    (st : EngineState) :
    (gpb_sio_next m t st).printInstructionBuffer
      = st.printInstructionBuffer := by
  cases m <;> rfl

/-- Arming a new transfer leaves the payload index alone. -/
lemma gpb_sio_next_data_i (m : gpb_sio_mode_t) (t : Nat) (st : EngineState) :
    (gpb_sio_next m t st).data_i = st.data_i := by
  cases m <;> rfl

/-- The first header state never touches the print-instruction buffer. -/
lemma parse_header1_printBuffer (t : EngineState) :
    (parse_header_command_and_compression t).printInstructionBuffer
      = t.printInstructionBuffer := by
  simp only [parse_header_command_and_compression, gpb_sio_next_printBuffer]

/-- The first header state always moves to the length state. -/
lemma parse_header1_packetState (t : EngineState) :
    (parse_header_command_and_compression t).packetState
      = .GBP_PKT10_PARSE_HEADER_DATA_LENGTH := by
  simp only [parse_header_command_and_compression, gpb_sio_next_packetState]

/-- The length state never touches the print-instruction buffer. -/
lemma parse_header2_printBuffer (t : EngineState) :
    (parse_header_data_length t).printInstructionBuffer
      = t.printInstructionBuffer := by
  simp only [parse_header_data_length]
  split_ifs <;> simp [gpb_sio_next_printBuffer]

/-- The payload state preserves the command byte. -/
lemma parse_data_payload_command (t : EngineState) :
    (parse_data_payload t).command = t.command := by
  simp only [parse_data_payload]
  split_ifs <;> simp [gpb_sio_next_command]

/-- Any command other than PRINT leaves the print-instruction buffer alone
in the payload state. -/
lemma parse_data_payload_printBuffer_other (t : EngineState)
    (hcmd : ¬ t.command = GBP_COMMAND_PRINT) :
    (parse_data_payload t).printInstructionBuffer
      = t.printInstructionBuffer := by
  simp only [parse_data_payload]
  split_ifs <;> simp_all [gpb_sio_next_printBuffer]

/-- The INQUIRY countdown block never touches the print-instruction
buffer. -/
lemma checksum_inquiry_countdown_printBuffer (t : EngineState) :
    (checksum_inquiry_countdown t).printInstructionBuffer
      = t.printInstructionBuffer := by
  simp only [checksum_inquiry_countdown]
  split_ifs <;> rfl

/-- The pre-dummy command switch never touches the print-instruction
buffer. -/
lemma checksum_command_update_printBuffer (t : EngineState) :
    (checksum_command_update t).printInstructionBuffer
      = t.printInstructionBuffer := by
  unfold checksum_command_update
  split_ifs <;> simp [checksum_inquiry_countdown_printBuffer]

/-- The checksum state never touches the print-instruction buffer. -/
lemma parse_checksum_printBuffer (t : EngineState) :
    (parse_checksum t).printInstructionBuffer
      = t.printInstructionBuffer := by
  simp only [parse_checksum, gpb_sio_next_printBuffer,
    checksum_command_update_printBuffer]

/-- The post-dummy command switch never touches the print-instruction
buffer. -/
lemma dummy_status_update_printBuffer (t : EngineState) :
    (dummy_status_update t).printInstructionBuffer
      = t.printInstructionBuffer := by
  simp only [dummy_status_update]
  split_ifs <;> rfl

/-- The notification switch never touches the print-instruction buffer. -/
lemma dummy_notify_update_printBuffer (t : EngineState) :
    (dummy_notify_update t).printInstructionBuffer
      = t.printInstructionBuffer := by
  simp only [dummy_notify_update]
  split_ifs <;> rfl

/-- The dummy state never touches the print-instruction buffer. -/
lemma parse_dummy_printBuffer (t : EngineState) :
    (parse_dummy t).printInstructionBuffer = t.printInstructionBuffer := by
  simp only [parse_dummy, gpb_sio_next_printBuffer,
    dummy_status_update_printBuffer, dummy_notify_update_printBuffer]

end GbpEmu

namespace GbpEmu

/-- Entering the payload state from the length state keeps the PRINT write
window inside the four-byte buffer: the index restarts at zero and the
length is clamped. -/
lemma parse_header_data_length_inv (t : EngineState) :
    (parse_header_data_length t).packetState
        = .GBP_PKT10_PARSE_DATA_PAYLOAD →
    (parse_header_data_length t).command = GBP_COMMAND_PRINT →
    (parse_header_data_length t).data_i < 4 ∧
    (parse_header_data_length t).data_length ≤ 4 := by
  simp only [parse_header_data_length]
  split_ifs with h1 h2 h3 <;>
    simp_all [gpb_sio_next_packetState, gpb_sio_next_command,
      gpb_sio_next_data_i, gpb_sio_next_data_length, GBP_COMMAND_DATA,
      GBP_COMMAND_PRINT] <;>
    omega

/-- One payload step of a PRINT packet keeps the write window inside the
four-byte buffer and preserves the buffer length. -/
lemma parse_data_payload_inv (t : EngineState)
    (hlen : t.printInstructionBuffer.length = 4)
    (hinv : t.command = GBP_COMMAND_PRINT →
      t.data_i < 4 ∧ t.data_length ≤ 4) :
    (parse_data_payload t).printInstructionBuffer.length = 4 ∧
    ((parse_data_payload t).packetState = .GBP_PKT10_PARSE_DATA_PAYLOAD →
      (parse_data_payload t).command = GBP_COMMAND_PRINT →
      (parse_data_payload t).data_i < 4 ∧
      (parse_data_payload t).data_length ≤ 4) := by
  by_cases hcmd : t.command = GBP_COMMAND_PRINT
  · obtain ⟨hdi, hdl⟩ := hinv hcmd
    have hmod : (t.data_i + 1) % 65536 = t.data_i + 1 := by omega
    simp only [parse_data_payload]
    split_ifs <;>
      simp_all [gpb_sio_next_packetState, gpb_sio_next_command,
        gpb_sio_next_data_i, gpb_sio_next_data_length,
        gpb_sio_next_printBuffer, GBP_COMMAND_DATA, GBP_COMMAND_PRINT,
        List.length_set] <;>
      omega
  · refine ⟨?_, ?_⟩
    · rw [parse_data_payload_printBuffer_other t hcmd]
      exact hlen
    · intro _ hc
      rw [parse_data_payload_command] at hc
      exact absurd hc hcmd

end GbpEmu

namespace GbpEmu

/-- One packet-layer transition preserves the print-write safety
invariant: the print-instruction buffer keeps its four slots, and while a
PRINT payload is open the write index stays below 4 with the clamped
length at most 4. -/
lemma gbp_packet_parse_print_inv (s : EngineState)
    (hlen : s.printInstructionBuffer.length = 4)
    (hinv : s.packetState = .GBP_PKT10_PARSE_DATA_PAYLOAD →
      s.command = GBP_COMMAND_PRINT → s.data_i < 4 ∧ s.data_length ≤ 4) :
    (gbp_packet_parse s).printInstructionBuffer.length = 4 ∧
    ((gbp_packet_parse s).packetState = .GBP_PKT10_PARSE_DATA_PAYLOAD →
      (gbp_packet_parse s).command = GBP_COMMAND_PRINT →
      (gbp_packet_parse s).data_i < 4 ∧
      (gbp_packet_parse s).data_length ≤ 4) := by
  cases hps : s.packetState
  case GBP_PKT10_PARSE_HEADER_COMMAND_AND_COMPRESSION =>
    have heq : gbp_packet_parse s = parse_header_command_and_compression
        { s with timeout_ms := GBP_PKT10_TIMEOUT_MS } := by
      simp [gbp_packet_parse, hps]
    rw [heq]
    constructor
    · rw [parse_header1_printBuffer]
      exact hlen
    · intro hp
      rw [parse_header1_packetState] at hp
      exact absurd hp (by decide)
  case GBP_PKT10_PARSE_HEADER_DATA_LENGTH =>
    have heq : gbp_packet_parse s = parse_header_data_length
        { s with timeout_ms := GBP_PKT10_TIMEOUT_MS } := by
      simp [gbp_packet_parse, hps]
    rw [heq]
    constructor
    · rw [parse_header2_printBuffer]
      exact hlen
    · exact parse_header_data_length_inv
        { s with timeout_ms := GBP_PKT10_TIMEOUT_MS }
  case GBP_PKT10_PARSE_DATA_PAYLOAD =>
    have heq : gbp_packet_parse s = parse_data_payload
        { s with timeout_ms := GBP_PKT10_TIMEOUT_MS } := by
      simp [gbp_packet_parse, hps]
    rw [heq]
    exact parse_data_payload_inv { s with timeout_ms := GBP_PKT10_TIMEOUT_MS }
      hlen (hinv hps)
  case GBP_PKT10_PARSE_CHECKSUM =>
    have heq : gbp_packet_parse s = parse_checksum
        { s with timeout_ms := GBP_PKT10_TIMEOUT_MS } := by
      simp [gbp_packet_parse, hps]
    rw [heq]
    constructor
    · rw [parse_checksum_printBuffer]
      exact hlen
    · intro hp
      rw [parse_checksum_packetState] at hp
      exact absurd hp (by decide)
  case GBP_PKT10_PARSE_DUMMY =>
    have heq : gbp_packet_parse s = parse_dummy
        { s with timeout_ms := GBP_PKT10_TIMEOUT_MS } := by
      simp [gbp_packet_parse, hps]
    rw [heq]
    constructor
    · rw [parse_dummy_printBuffer]
      exact hlen
    · intro hp
      rw [parse_dummy_packetState] at hp
      exact absurd hp (by decide)

end GbpEmu

namespace GbpEmu

/-- A clock edge preserves the print-write safety invariant. -/
lemma OnChange_ISR_print_inv (sclk sout : Bool) (st : EngineState)
    (hlen : st.printInstructionBuffer.length = 4)
    (hinv : st.packetState = .GBP_PKT10_PARSE_DATA_PAYLOAD →
      st.command = GBP_COMMAND_PRINT → st.data_i < 4 ∧ st.data_length ≤ 4) :
    (gpb_serial_io_OnChange_ISR sclk sout st).1.printInstructionBuffer.length
      = 4 ∧
    ((gpb_serial_io_OnChange_ISR sclk sout st).1.packetState
        = .GBP_PKT10_PARSE_DATA_PAYLOAD →
      (gpb_serial_io_OnChange_ISR sclk sout st).1.command
        = GBP_COMMAND_PRINT →
      (gpb_serial_io_OnChange_ISR sclk sout st).1.data_i < 4 ∧
      (gpb_serial_io_OnChange_ISR sclk sout st).1.data_length ≤ 4) := by
  simp only [gpb_serial_io_OnChange_ISR]
  split_ifs
  all_goals
    first
      | exact ⟨hlen, hinv⟩
      | (refine gbp_packet_parse_print_inv _ ?_ ?_ <;>
          first
            | exact hlen
            | exact hinv)
      | (refine ⟨?_, fun hp _ => absurd hp (by
            simp [gpb_sio_next_packetState])⟩
         simp [gpb_sio_next_printBuffer, hlen])

/-- Every reachable state satisfies the print-write safety invariant. -/
lemma reachable_print_inv (st : EngineState) (h : Reachable st) :
    st.printInstructionBuffer.length = 4 ∧
    (st.packetState = .GBP_PKT10_PARSE_DATA_PAYLOAD →
      st.command = GBP_COMMAND_PRINT →
      st.data_i < 4 ∧ st.data_length ≤ 4) := by
  induction h with
  | init_start b =>
      refine ⟨rfl, fun hp => ?_⟩
      simp [initialState, gpb_serial_io_init, gpb_serial_io_reset,
        zeroedState] at hp
  | edge st sclk sout hr ih =>
      exact OnChange_ISR_print_inv sclk sout st ih.1 ih.2
  | word st w hr ih =>
      exact gbp_packet_parse_print_inv { st with rx_buff := w } ih.1 ih.2
  | tick st e hr ih =>
      obtain ⟨-, -, -, h4, h5, h6, h7, h8⟩ := timeout_handler_keep st e
      rw [h4, h5, h6, h7, h8]
      exact ih
  | reset st hr ih =>
      obtain ⟨-, -, -, h4, h5, h6, h7, h8⟩ := gpb_serial_io_reset_keep st
      rw [h4, h5, h6, h7, h8]
      exact ih
  | drain st hr ih =>
      obtain ⟨-, -, -, h4, h5, h6, h7, h8⟩ := dataBuff_getByte_keep st
      rw [h4, h5, h6, h7, h8]
      exact ih
  | reinit st b hr ih =>
      obtain ⟨-, -, -, h4, h5, h6, h7, h8⟩ := gpb_serial_io_init_keep b st
      rw [h4, h5, h6, h7, h8]
      exact ih

/-- In the payload state of a PRINT packet the received byte is written
into the print-instruction buffer exactly at the current payload index. -/
lemma parse_data_payload_write (t : EngineState)
    (hcmd : t.command = GBP_COMMAND_PRINT) :
    (parse_data_payload t).printInstructionBuffer
      = t.printInstructionBuffer.set t.data_i (t.rx_buff % 256) := by
  simp only [parse_data_payload]
  split_ifs <;>
    simp_all [gpb_sio_next_printBuffer, GBP_COMMAND_DATA, GBP_COMMAND_PRINT]

end GbpEmu

namespace GbpEmu

/-- C10: in every reachable state sitting in the payload phase of a PRINT
packet, the payload index is in 0..3, the print-instruction buffer holds
exactly four slots, and the next completed transfer writes its byte at
precisely that in-range index. -/
theorem C10_print_write_in_bounds (st : EngineState) (h : Reachable st)
    (hps : st.packetState = .GBP_PKT10_PARSE_DATA_PAYLOAD)
    (hcmd : st.command = GBP_COMMAND_PRINT) :
    st.data_i < 4 ∧ st.printInstructionBuffer.length = 4 ∧
    ∀ w : Nat, (gpb_serial_io_receiveWord w st).printInstructionBuffer
      = st.printInstructionBuffer.set st.data_i (w % 256) := by
  obtain ⟨hlen, hinv⟩ := reachable_print_inv st h
  obtain ⟨hdi, hdl⟩ := hinv hps hcmd
  refine ⟨hdi, hlen, fun w => ?_⟩
  have heq : gpb_serial_io_receiveWord w st = parse_data_payload
      { st with rx_buff := w, timeout_ms := GBP_PKT10_TIMEOUT_MS } := by
    simp [gpb_serial_io_receiveWord, gbp_packet_parse, hps]
  rw [heq, parse_data_payload_write
    { st with rx_buff := w, timeout_ms := GBP_PKT10_TIMEOUT_MS } hcmd]

/-- The state of a freshly initialised engine that has read the header and
length words of a PRINT packet and sits at the start of its payload. -/
def c10WitnessState : EngineState :=
  feedWords [0x0200, leRaw 4] (initialState 4)

/-- C10, instantiated right after the length word of a PRINT packet on a
freshly initialised engine. -/
theorem C10_print_write_in_bounds_witness :
    c10WitnessState.packetState = .GBP_PKT10_PARSE_DATA_PAYLOAD ∧
    c10WitnessState.command = GBP_COMMAND_PRINT ∧
    (c10WitnessState.data_i < 4 ∧
      c10WitnessState.printInstructionBuffer.length = 4 ∧
      ∀ w : Nat,
        (gpb_serial_io_receiveWord w c10WitnessState).printInstructionBuffer
          = c10WitnessState.printInstructionBuffer.set
              c10WitnessState.data_i (w % 256)) :=
  ⟨by decide, by decide,
    C10_print_write_in_bounds c10WitnessState
      (Reachable.word _ (leRaw 4)
        (Reachable.word _ 0x0200 (Reachable.init_start 4)))
      (by decide) (by decide)⟩

end GbpEmu
